import Mathlib

/-!
# PCM interface (`src/pcm/pcm.c`): open/retry, close, blocking mode, setup cache,
transitions, buffered transfer, mmap

A shallow embedding of the PCM interface file.  Every C function is a Lean
function that passes the session object and the state of the outside world
explicitly.  The operating system and the control interface are an arbitrary
deterministic environment `Kernel`: the reply to a call may depend on the whole
history of calls issued so far.
-/

namespace AlsaPcm

/-! ## System constants (Linux values) -/

def EINVAL : Int := 22
def EBUSY : Int := 16
def ENOMEM : Int := 12
def EBADFD : Int := 77
def EIO : Int := 5
/-- The largest error number of the system: `errno` values lie in 1..4095. -/
def MAX_ERRNO : Int := 4095
def O_RDWR : Int := 2
def O_NONBLOCK : Int := 2048
def PROT_READ : Int := 1
def PROT_WRITE : Int := 2
def MAP_FILE : Int := 0
def MAP_SHARED : Int := 1
/-- The value `(caddr_t)-1` that `mmap` returns on failure. -/
def MAP_FAILED : Int := -1
/-- The null pointer. -/
def NULL : Int := 0

/-! ## Channel numbers, fixed by the range checks `channel < 0 || channel > 1` -/

def SND_PCM_CHANNEL_PLAYBACK : Int := 0
def SND_PCM_CHANNEL_CAPTURE : Int := 1

/-- Constants and macros of the headers (`pcm_local.h`, `asoundlib.h`) that the
file includes; the headers are not part of the sources, so their values are
parameters of the development. -/
structure Consts where
  SND_CARDS : Int
  SND_PCM_OPEN_PLAYBACK : Int
  SND_PCM_OPEN_CAPTURE : Int
  SND_PCM_OPEN_NONBLOCK : Int
  SND_PCM_MODE_BLOCK : Int
  SND_ERROR_INCOMPATIBLE_VERSION : Int
  /-- The macro `SND_PROTOCOL_VERSION(major, minor, subminor)`. -/
  SND_PROTOCOL_VERSION : Int → Int → Int → Int
  /-- The macro `SND_PROTOCOL_INCOMPATIBLE(kversion, uversion)`. -/
  SND_PROTOCOL_INCOMPATIBLE : Int → Int → Bool
  SND_PCM_MMAP_OFFSET_CONTROL : Int
  SND_PCM_MMAP_OFFSET_DATA : Int
  /-- The size `sizeof(snd_pcm_mmap_control_t)`. -/
  sizeof_mmap_control : Int

/-- The library maximum `#define SND_PCM_VERSION_MAX SND_PROTOCOL_VERSION(1, 1, 0)`. -/
def SND_PCM_VERSION_MAX (C : Consts) : Int := C.SND_PROTOCOL_VERSION 1 1 0

/-! ## Request structures

The structures are declared in headers that are not among the sources; each is
modelled by the fields that `pcm.c` accesses plus one field for all the
remaining bytes. -/

/-- The structure `snd_pcm_channel_setup_t`: the fields the file reads
(`channel`, `mode`, `buf.block.frag_size`) and the remaining bytes, which are
only copied. -/
structure snd_pcm_channel_setup_t where
  channel : Int
  mode : Int
  frag_size : Int
  rest : Nat
deriving DecidableEq, Repr

/-- The structure `snd_pcm_channel_params_t`: the direction and the remaining
bytes, which the file only hands to the device. -/
structure snd_pcm_channel_params_t where
  channel : Int
  rest : Nat
deriving DecidableEq, Repr

/-- The structure `snd_pcm_channel_info_t`: the fields the file reads or writes
and the remaining bytes. -/
structure snd_pcm_channel_info_t where
  channel : Int
  subdevice : Int
  mmap_size : Int
  rest : Nat
deriving DecidableEq, Repr

/-- The structure `snd_pcm_voice_setup_t`: the file only hands it to the device. -/
structure snd_pcm_voice_setup_t where
  rest : Nat
deriving DecidableEq, Repr

/-- The structure `snd_pcm_channel_status_t`: the direction and the remaining
bytes. -/
structure snd_pcm_channel_status_t where
  channel : Int
  rest : Nat
deriving DecidableEq, Repr

/-- The structure `snd_pcm_sync_t`: the file only hands it to the device. -/
structure snd_pcm_sync_t where
  rest : Nat
deriving DecidableEq, Repr

/-- The result of `memset(&setup, 0, sizeof(setup))`. -/
def setup_zero : snd_pcm_channel_setup_t := ⟨0, 0, 0, 0⟩

/-- The result of `memset(&info, 0, sizeof(info))`. -/
def info_zero : snd_pcm_channel_info_t := ⟨0, 0, 0, 0⟩

/-! ## The environment -/

/-- The calls that leave the library: system calls on the device files, memory
mapping, allocation, and the control interface (`snd_ctl_*`, another file). -/
inductive Call where
  /-- The call `open(filename, fmode)`; the file name is the direction's
  template filled with `card` and `device`. -/
  | sys_open (card device channel fmode : Int)
  | sys_close (fd : Int)
  | ioctl_pversion (fd : Int)
  | ioctl_channel_info (fd : Int) (arg : snd_pcm_channel_info_t)
  | ioctl_channel_params (fd : Int) (arg : snd_pcm_channel_params_t)
  | ioctl_channel_setup (fd : Int) (arg : snd_pcm_channel_setup_t)
  | sys_write (fd : Int) (buffer : Int) (size : Nat)
  | sys_read (fd : Int) (buffer : Int) (size : Nat)
  | sys_mmap (length prot flags fd offset : Int)
  | sys_munmap (addr length : Int)
  | calloc
  | ctl_open (card : Int)
  | ctl_prefer_subdevice (ctl device channel subdevice : Int)
  | ctl_close (ctl : Int)
  | ioctl_voice_setup (fd : Int) (arg : snd_pcm_voice_setup_t)
  | ioctl_channel_status (fd : Int) (arg : snd_pcm_channel_status_t)
  | ioctl_channel_prepare (fd : Int)
  | ioctl_channel_go (fd : Int)
  | ioctl_sync_go (fd : Int) (arg : snd_pcm_sync_t)
  | ioctl_channel_drain (fd : Int)
  | ioctl_channel_flush (fd : Int)
  | ioctl_channel_pause (fd : Int) (enable : Int)
  | fcntl_getfl (fd : Int)
  | fcntl_setfl (fd : Int) (flags : Int)
  /-- The call `snd_pcm_plugin_munmap(pcm, channel)`: a function of another file
  of the library, which is not among the sources; it releases what the plugin
  layer mapped for the direction and leaves the fields modelled here alone. -/
  | plugin_munmap (channel : Int)
  /-- The call `snd_pcm_plugin_clear(pcm, channel)`: a function of another file
  of the library, which is not among the sources; it releases the plugins of
  the direction and leaves the fields modelled here alone. -/
  | plugin_clear (channel : Int)
  | free
deriving DecidableEq, Repr

/-- An error number as `errno` holds it after a failed call: positive. -/
structure Errno where
  val : Nat
  pos : 0 < val

/-- The value `-errno`. -/
def Errno.neg (e : Errno) : Int := -(e.val : Int)

/-- What a call leaves behind: its return value, `errno`, and what it wrote
through its pointer argument (each call uses the fields that apply to it). -/
structure Reply where
  ret : Int
  errno : Errno
  /-- The value written to `*ver` by the version query. -/
  ver : Int
  /-- The channel info structure after the call. -/
  info : snd_pcm_channel_info_t
  /-- The setup structure after the call. -/
  setup : snd_pcm_channel_setup_t
  /-- The pointer returned (`mmap`, `calloc`) or stored (`snd_ctl_open`). -/
  ptr : Int
  /-- The voice setup structure after the call. -/
  voice : snd_pcm_voice_setup_t
  /-- The channel status structure after the call. -/
  status : snd_pcm_channel_status_t

/-- The environment: the reply to the last call of a history of calls. -/
abbrev Kernel := List Call → Reply

/-- The state outside the session object: the calls issued so far (oldest
first), the descriptors that are open and the regions that are mapped. -/
structure World where
  trace : List Call
  fds : List Int
  maps : List (Int × Int)
deriving DecidableEq, Repr

/-- Issue a call: it is appended to the history and the environment replies. -/
def issue (K : Kernel) (c : Call) (w : World) : Reply × World :=
  (K (w.trace ++ [c]), { w with trace := w.trace ++ [c] })

/-- The call `open`: a non-negative result is a new open descriptor. -/
def sys_open (K : Kernel) (card device channel fmode : Int) (w : World) : Reply × World :=
  let r := (issue K (.sys_open card device channel fmode) w).1
  let w1 := (issue K (.sys_open card device channel fmode) w).2
  if r.ret < 0 then (r, w1) else (r, { w1 with fds := r.ret :: w1.fds })

/-- The call `close`: the descriptor is released whatever the call returns. -/
def sys_close (K : Kernel) (fd : Int) (w : World) : Reply × World :=
  let r := (issue K (.sys_close fd) w).1
  let w1 := (issue K (.sys_close fd) w).2
  (r, { w1 with fds := w1.fds.erase fd })

/-- The call `mmap` with a null address hint: a result other than `MAP_FAILED`
and `NULL` is a new mapped region (without `MAP_FIXED` nothing is mapped at
address 0). -/
def sys_mmap (K : Kernel) (length prot flags fd offset : Int) (w : World) : Reply × World :=
  let r := (issue K (.sys_mmap length prot flags fd offset) w).1
  let w1 := (issue K (.sys_mmap length prot flags fd offset) w).2
  if r.ptr = MAP_FAILED ∨ r.ptr = NULL then (r, w1)
  else (r, { w1 with maps := (r.ptr, length) :: w1.maps })

/-- The call `munmap`: the region is released. -/
def sys_munmap (K : Kernel) (addr length : Int) (w : World) : Reply × World :=
  let r := (issue K (.sys_munmap addr length) w).1
  let w1 := (issue K (.sys_munmap addr length) w).2
  (r, { w1 with maps := w1.maps.erase (addr, length) })

/-! ## The session object -/

/-- One direction of a session, `struct snd_pcm_chan` (declared in
`pcm_local.h`, not among the sources): the fields `pcm.c` accesses. -/
structure snd_pcm_chan where
  fd : Int
  setup_is_valid : Bool
  setup : snd_pcm_channel_setup_t
  mmap_control : Int
  mmap_data : Int
  mmap_size : Int
deriving DecidableEq, Repr

/-- The session object `snd_pcm_t`; `chan[0]` is `playback`, `chan[1]` is `capture`. -/
structure snd_pcm_t where
  card : Int
  device : Int
  playback : snd_pcm_chan
  capture : snd_pcm_chan
  mode : Int
  ver : Int
deriving DecidableEq, Repr

/-- The slot `pcm->chan[channel]`, for a channel number that passed the range
check (0 or 1). -/
def snd_pcm_t.chan (pcm : snd_pcm_t) (channel : Int) : snd_pcm_chan :=
  if channel = 0 then pcm.playback else pcm.capture

/-- Store into the slot `pcm->chan[channel]`, for a channel number that passed
the range check (0 or 1). -/
def snd_pcm_t.setChan (pcm : snd_pcm_t) (channel : Int) (c : snd_pcm_chan) : snd_pcm_t :=
  if channel = 0 then { pcm with playback := c } else { pcm with capture := c }

/-! ## Parameters and setup: `snd_pcm_channel_info`, `snd_pcm_channel_setup`,
`snd_pcm_channel_params` -/

/-- The function `snd_pcm_channel_info`: result, the caller's structure after
the call, the world after the call. -/
def snd_pcm_channel_info (K : Kernel) (pcm : Option snd_pcm_t)
    (info : Option snd_pcm_channel_info_t) (w : World) :
    Int × Option snd_pcm_channel_info_t × World :=
  match pcm, info with
  | some p, some i =>
    if i.channel < 0 ∨ i.channel > 1 then (-EINVAL, info, w)
    else
      let fd := (p.chan i.channel).fd
      if fd < 0 then (-EINVAL, info, w)
      else
        let r := issue K (.ioctl_channel_info fd i) w
        if r.1.ret < 0 then (r.1.errno.neg, some r.1.info, r.2)
        else (0, some r.1.info, r.2)
  | _, _ => (-EINVAL, info, w)

/-- The function `snd_pcm_channel_setup`: result, the session object after the
call, the caller's structure after the call, the world after the call. -/
def snd_pcm_channel_setup (K : Kernel) (pcm : Option snd_pcm_t)
    (setup : Option snd_pcm_channel_setup_t) (w : World) :
    Int × Option snd_pcm_t × Option snd_pcm_channel_setup_t × World :=
  match pcm, setup with
  | some p, some s =>
    if s.channel < 0 ∨ s.channel > 1 then (-EINVAL, pcm, setup, w)
    else
      let chan := p.chan s.channel
      let fd := chan.fd
      if fd < 0 then (-EINVAL, pcm, setup, w)
      else if chan.setup_is_valid then (0, pcm, some chan.setup, w)
      else
        let r := issue K (.ioctl_channel_setup fd s) w
        if r.1.ret < 0 then (r.1.errno.neg, pcm, some r.1.setup, r.2)
        else
          (0, some (p.setChan s.channel { chan with setup := r.1.setup, setup_is_valid := true }),
            some r.1.setup, r.2)
  | _, _ => (-EINVAL, pcm, setup, w)

/-- In `snd_pcm_channel_params` the structure handed to `snd_pcm_channel_setup`
is `&chan->setup` itself, so whatever the call leaves in its argument is in the
slot afterwards. -/
def setup_alias (channel : Int) (pcm : Option snd_pcm_t)
    (setup : Option snd_pcm_channel_setup_t) : Option snd_pcm_t :=
  match pcm, setup with
  | some q, some s => some (q.setChan channel { q.chan channel with setup := s })
  | _, _ => pcm

/-- The function `snd_pcm_channel_params`: result, the session object after the
call, the world after the call.  The device only reads the parameter structure. -/
def snd_pcm_channel_params (K : Kernel) (pcm : Option snd_pcm_t)
    (params : Option snd_pcm_channel_params_t) (w : World) :
    Int × Option snd_pcm_t × World :=
  match pcm, params with
  | some p, some prm =>
    if prm.channel < 0 ∨ prm.channel > 1 then (-EINVAL, pcm, w)
    else
      let chan := p.chan prm.channel
      let fd := chan.fd
      if fd < 0 then (-EINVAL, pcm, w)
      else
        let r := issue K (.ioctl_channel_params fd prm) w
        if r.1.ret < 0 then (r.1.errno.neg, pcm, r.2)
        else
          let chan1 : snd_pcm_chan :=
            { chan with setup_is_valid := false, setup := { setup_zero with channel := prm.channel } }
          let p1 := p.setChan prm.channel chan1
          let q := snd_pcm_channel_setup K (some p1) (some chan1.setup) r.2
          let p2 := setup_alias prm.channel q.2.1 q.2.2.1
          if q.1 < 0 then (q.1, p2, q.2.2.2)
          else (0, p2, q.2.2.2)
  | _, _ => (-EINVAL, pcm, w)

/-- The setup structure that `snd_pcm_channel_params` hands to the re-query:
zeroed, with the direction of the parameters. -/
def requery_arg (d : Int) : snd_pcm_channel_setup_t := { setup_zero with channel := d }

/-- The call sequence `snd_pcm_channel_params` immediately followed by
`snd_pcm_channel_setup` on the same session: the result of the second call. -/
def params_then_setup (K : Kernel) (pcm : Option snd_pcm_t) (prm : snd_pcm_channel_params_t)
    (s : snd_pcm_channel_setup_t) (w : World) :
    Int × Option snd_pcm_t × Option snd_pcm_channel_setup_t × World :=
  snd_pcm_channel_setup K (snd_pcm_channel_params K pcm (some prm) w).2.1 (some s)
    (snd_pcm_channel_params K pcm (some prm) w).2.2

/-! ## Accessors and buffered transfer -/

/-- The function `snd_pcm_file_descriptor`. -/
def snd_pcm_file_descriptor (pcm : Option snd_pcm_t) (channel : Int) : Int :=
  match pcm with
  | none => -EINVAL
  | some p =>
    if channel < 0 ∨ channel > 1 then -EINVAL
    else (p.chan channel).fd

/-- The function `snd_pcm_transfer_size`: result, session object and world
after the call. -/
def snd_pcm_transfer_size (C : Consts) (pcm : Option snd_pcm_t) (channel : Int) (w : World) :
    Int × Option snd_pcm_t × World :=
  match pcm with
  | none => (-EINVAL, pcm, w)
  | some p =>
    if channel < 0 ∨ channel > 1 then (-EINVAL, pcm, w)
    else
      let chan := p.chan channel
      if ¬ chan.setup_is_valid then (-EBADFD, pcm, w)
      else if chan.setup.mode ≠ C.SND_PCM_MODE_BLOCK then (-EBADFD, pcm, w)
      else (chan.setup.frag_size, pcm, w)

/-- The function `snd_pcm_write`; `buffer` is the address passed (0 is the null
pointer), `size` is a `size_t`. -/
def snd_pcm_write (K : Kernel) (pcm : Option snd_pcm_t) (buffer : Int) (size : Nat) (w : World) :
    Int × World :=
  match pcm with
  | none => (-EINVAL, w)
  | some p =>
    if (buffer = NULL ∧ size > 0) ∨ (size : Int) < 0 then (-EINVAL, w)
    else if (p.chan SND_PCM_CHANNEL_PLAYBACK).fd < 0 then (-EINVAL, w)
    else
      let r := issue K (.sys_write (p.chan SND_PCM_CHANNEL_PLAYBACK).fd buffer size) w
      if r.1.ret < 0 then (r.1.errno.neg, r.2) else (r.1.ret, r.2)

/-- The function `snd_pcm_read`; `buffer` is the address passed (0 is the null
pointer), `size` is a `size_t`. -/
def snd_pcm_read (K : Kernel) (pcm : Option snd_pcm_t) (buffer : Int) (size : Nat) (w : World) :
    Int × World :=
  match pcm with
  | none => (-EINVAL, w)
  | some p =>
    if (buffer = NULL ∧ size > 0) ∨ (size : Int) < 0 then (-EINVAL, w)
    else if (p.chan SND_PCM_CHANNEL_CAPTURE).fd < 0 then (-EINVAL, w)
    else
      let r := issue K (.sys_read (p.chan SND_PCM_CHANNEL_CAPTURE).fd buffer size) w
      if r.1.ret < 0 then (r.1.errno.neg, r.2) else (r.1.ret, r.2)

/-! ## Memory mapping: `snd_pcm_mmap`, `snd_pcm_munmap` -/

/-- The function `snd_pcm_mmap`.  The arguments `control` and `buffer` are
pointers to the caller's two pointer variables: `none` is a null argument,
`some v` a variable that holds `v`.  Result: return value, session object,
the two variables and the world after the call. -/
def snd_pcm_mmap (C : Consts) (K : Kernel) (pcm : Option snd_pcm_t) (channel : Int)
    (control buffer : Option Int) (w : World) :
    Int × Option snd_pcm_t × Option Int × Option Int × World :=
  let control0 := control.map (fun _ => NULL)
  let buffer0 := buffer.map (fun _ => NULL)
  match pcm with
  | none => (-EINVAL, pcm, control0, buffer0, w)
  | some p =>
    if channel < 0 ∨ channel > 1 ∨ control = none ∨ buffer = none then
      (-EINVAL, pcm, control0, buffer0, w)
    else
      let chan := p.chan channel
      let fd := chan.fd
      if fd < 0 then (-EINVAL, pcm, control0, buffer0, w)
      else
        let qi := snd_pcm_channel_info K pcm (some { info_zero with channel := channel }) w
        let info := qi.2.1.getD info_zero
        if qi.1 < 0 then (qi.1, pcm, control0, buffer0, qi.2.2)
        else
          let rc := sys_mmap K C.sizeof_mmap_control (Int.lor PROT_READ PROT_WRITE)
            (Int.lor MAP_FILE MAP_SHARED) fd C.SND_PCM_MMAP_OFFSET_CONTROL qi.2.2
          let caddr := rc.1.ptr
          if caddr = MAP_FAILED ∨ caddr = NULL then (rc.1.errno.neg, pcm, control0, buffer0, rc.2)
          else
            let prot := if channel = SND_PCM_CHANNEL_PLAYBACK then PROT_WRITE else PROT_READ
            let rd := sys_mmap K info.mmap_size prot (Int.lor MAP_FILE MAP_SHARED) fd
              C.SND_PCM_MMAP_OFFSET_DATA rc.2
            let daddr := rd.1.ptr
            if daddr = MAP_FAILED ∨ daddr = NULL then
              let err := rd.1.errno.neg
              let ru := sys_munmap K caddr C.sizeof_mmap_control rd.2
              (err, pcm, control0, buffer0, ru.2)
            else
              (0, some (p.setChan channel
                  { chan with mmap_control := caddr, mmap_data := daddr, mmap_size := info.mmap_size }),
                some caddr, some daddr, rd.2)

/-- The function `snd_pcm_munmap`: return value, session object and world after
the call. -/
def snd_pcm_munmap (C : Consts) (K : Kernel) (pcm : Option snd_pcm_t) (channel : Int) (w : World) :
    Int × Option snd_pcm_t × World :=
  match pcm with
  | none => (-EINVAL, pcm, w)
  | some p =>
    if channel < 0 ∨ channel > 1 then (-EINVAL, pcm, w)
    else
      let chan := p.chan channel
      let w1 := if chan.mmap_control ≠ NULL then
          (sys_munmap K chan.mmap_control C.sizeof_mmap_control w).2 else w
      let chan1 := if chan.mmap_control ≠ NULL then { chan with mmap_control := NULL } else chan
      let w2 := if chan1.mmap_data ≠ NULL then
          (sys_munmap K chan1.mmap_data chan1.mmap_size w1).2 else w1
      let chan2 := if chan1.mmap_data ≠ NULL then
          { chan1 with mmap_data := NULL, mmap_size := 0 } else chan1
      (0, some (p.setChan channel chan2), w2)

/-- The channel info query that `snd_pcm_mmap` makes for direction `d`. -/
def mmap_info_call (K : Kernel) (p : snd_pcm_t) (d : Int) (w : World) : Reply × World :=
  issue K (.ioctl_channel_info (p.chan d).fd { info_zero with channel := d }) w

/-- The mapping of the control region that `snd_pcm_mmap` makes for direction
`d`, after the channel info query. -/
def mmap_control_call (C : Consts) (K : Kernel) (p : snd_pcm_t) (d : Int) (w : World) :
    Reply × World :=
  sys_mmap K C.sizeof_mmap_control (Int.lor PROT_READ PROT_WRITE) (Int.lor MAP_FILE MAP_SHARED)
    (p.chan d).fd C.SND_PCM_MMAP_OFFSET_CONTROL (mmap_info_call K p d w).2

/-- The mapping of the data region that `snd_pcm_mmap` makes for direction `d`,
after the control region was mapped. -/
def mmap_data_call (C : Consts) (K : Kernel) (p : snd_pcm_t) (d : Int) (w : World) :
    Reply × World :=
  sys_mmap K (mmap_info_call K p d w).1.info.mmap_size
    (if d = SND_PCM_CHANNEL_PLAYBACK then PROT_WRITE else PROT_READ)
    (Int.lor MAP_FILE MAP_SHARED) (p.chan d).fd C.SND_PCM_MMAP_OFFSET_DATA
    (mmap_control_call C K p d w).2

/-- The call sequence `snd_pcm_mmap` followed by `snd_pcm_munmap` on the same
direction: the result of the `snd_pcm_munmap`. -/
def mmap_then_munmap (C : Consts) (K : Kernel) (p : snd_pcm_t) (d : Int)
    (control buffer : Int) (w : World) : Int × Option snd_pcm_t × World :=
  snd_pcm_munmap C K (snd_pcm_mmap C K (some p) d (some control) (some buffer) w).2.1 d
    (snd_pcm_mmap C K (some p) d (some control) (some buffer) w).2.2.2.2

/-! ## Opening: `snd_pcm_open_channel`, `snd_pcm_open_subdevice` -/

/-- How one pass through the body below the label `__again` ends: with a
`return`, or with `goto __again`. -/
inductive Attempt where
  | ret (v : Int)
  | again
deriving DecidableEq, Repr

/-- One pass of `snd_pcm_open_channel` from `open(filename, fmode)` to the
subdevice comparison: how it ends, `*ver`, and the world after it. -/
def open_attempt (C : Consts) (K : Kernel) (card device channel subdevice fmode : Int)
    (ver : Int) (w : World) : Attempt × Int × World :=
  let ro := sys_open K card device channel fmode w
  let fd := ro.1.ret
  if fd < 0 then (.ret ro.1.errno.neg, ver, ro.2)
  else
    let rv := issue K (.ioctl_pversion fd) ro.2
    if rv.1.ret < 0 then (.ret rv.1.errno.neg, rv.1.ver, (sys_close K fd rv.2).2)
    else if C.SND_PROTOCOL_INCOMPATIBLE rv.1.ver (SND_PCM_VERSION_MAX C) then
      (.ret (-C.SND_ERROR_INCOMPATIBLE_VERSION), rv.1.ver, (sys_close K fd rv.2).2)
    else if subdevice ≥ 0 then
      let ri := issue K (.ioctl_channel_info fd info_zero) rv.2
      if ri.1.ret < 0 then (.ret ri.1.errno.neg, rv.1.ver, (sys_close K fd ri.2).2)
      else if ri.1.info.subdevice ≠ subdevice then (.again, rv.1.ver, (sys_close K fd ri.2).2)
      else (.ret fd, rv.1.ver, ri.2)
    else (.ret fd, rv.1.ver, rv.2)

/-- The loop of `snd_pcm_open_channel` from the label `__again`, entered with
the current value of `attempt`: return value, `*ver`, world. -/
def snd_pcm_open_channel_again (C : Consts) (K : Kernel)
    (card device channel subdevice fmode ctl : Int) (attempt : Nat) (ver : Int) (w : World) :
    Int × Int × World :=
  if _h : attempt > 3 then
    (-EBUSY, ver, (issue K (.ctl_close ctl) w).2)
  else
    match (open_attempt C K card device channel subdevice fmode ver w).1 with
    | .ret v =>
      (v, (open_attempt C K card device channel subdevice fmode ver w).2.1,
        (open_attempt C K card device channel subdevice fmode ver w).2.2)
    | .again =>
      snd_pcm_open_channel_again C K card device channel subdevice fmode ctl (attempt + 1)
        (open_attempt C K card device channel subdevice fmode ver w).2.1
        (open_attempt C K card device channel subdevice fmode ver w).2.2
termination_by 4 - attempt
decreasing_by omega

/-- The function `snd_pcm_open_channel`: return value, `*ver`, world.  The
control handle is the pointer value `ctl`. -/
def snd_pcm_open_channel (C : Consts) (K : Kernel)
    (card device channel subdevice fmode ctl : Int) (ver : Int) (w : World) :
    Int × Int × World :=
  if channel = SND_PCM_CHANNEL_PLAYBACK ∨ channel = SND_PCM_CHANNEL_CAPTURE then
    let rp := issue K (.ctl_prefer_subdevice ctl device channel subdevice) w
    if rp.1.ret < 0 then (rp.1.ret, ver, rp.2)
    else snd_pcm_open_channel_again C K card device channel subdevice fmode ctl 0 ver rp.2
  else (-EINVAL, ver, w)

/-- The channel slot of a session object fresh from `calloc`, with its
descriptor stored. -/
def chan_init (fd : Int) : snd_pcm_chan :=
  { fd := fd, setup_is_valid := false, setup := setup_zero,
    mmap_control := NULL, mmap_data := NULL, mmap_size := 0 }

/-- The flags `fmode` that `snd_pcm_open_subdevice` computes from `mode`:
`O_RDWR`, with `O_NONBLOCK` when `mode & SND_PCM_OPEN_NONBLOCK`. -/
def open_fmode (C : Consts) (mode : Int) : Int :=
  if Int.land mode C.SND_PCM_OPEN_NONBLOCK ≠ 0 then Int.lor O_RDWR O_NONBLOCK else O_RDWR

/-- The end of `snd_pcm_open_subdevice`, from the `snd_ctl_close(ctl)` that
follows the two directions to the final `return 0`, entered with the values of
the locals `pfd`, `cfd` and `ver`. -/
def open_subdevice_finish (K : Kernel) (card device mode ctl pfd cfd ver : Int) (w : World) :
    Int × Option snd_pcm_t × World :=
  let w4 := (issue K (.ctl_close ctl) w).2
  if pfd < 0 ∧ cfd < 0 then (-EINVAL, none, w4)
  else
    let ra := issue K .calloc w4
    if ra.1.ptr = NULL then
      let w5 := if pfd ≥ 0 then (sys_close K pfd ra.2).2 else ra.2
      let w6 := if cfd ≥ 0 then (sys_close K cfd w5).2 else w5
      (-ENOMEM, none, w6)
    else
      (0, some { card := card, device := device, playback := chan_init pfd,
                 capture := chan_init cfd, mode := mode, ver := ver }, ra.2)

/-- The part of `snd_pcm_open_subdevice` from `if (mode & SND_PCM_OPEN_CAPTURE)`
on, entered with the values of the locals `pfd` and `ver` (`cfd` is still -1). -/
def open_subdevice_capture (C : Consts) (K : Kernel)
    (card device subdevice mode fmode ctl pfd ver : Int) (w : World) :
    Int × Option snd_pcm_t × World :=
  let c : Int × Int × World :=
    if Int.land mode C.SND_PCM_OPEN_CAPTURE ≠ 0 then
      snd_pcm_open_channel C K card device SND_PCM_CHANNEL_CAPTURE subdevice fmode ctl ver w
    else (-1, ver, w)
  if Int.land mode C.SND_PCM_OPEN_CAPTURE ≠ 0 ∧ c.1 < 0 then
    let w3 := if pfd ≥ 0 then (sys_close K pfd c.2.2).2 else c.2.2
    (c.1, none, (issue K (.ctl_close ctl) w3).2)
  else open_subdevice_finish K card device mode ctl pfd c.1 c.2.1 c.2.2

/-- The function `snd_pcm_open_subdevice`: return value, `*handle` and the
world after the call; its text continues in `open_subdevice_capture` and
`open_subdevice_finish`.  The local `ver` is not initialised in the source; it
is read only after a channel was opened, which wrote it. -/
def snd_pcm_open_subdevice (C : Consts) (K : Kernel) (card device subdevice mode : Int)
    (w : World) : Int × Option snd_pcm_t × World :=
  if card < 0 ∨ card ≥ C.SND_CARDS then (-EINVAL, none, w)
  else
    let rc := issue K (.ctl_open card) w
    if rc.1.ret < 0 then (rc.1.ret, none, rc.2)
    else
      let ctl := rc.1.ptr
      let fmode := open_fmode C mode
      let p : Int × Int × World :=
        if Int.land mode C.SND_PCM_OPEN_PLAYBACK ≠ 0 then
          snd_pcm_open_channel C K card device SND_PCM_CHANNEL_PLAYBACK subdevice fmode ctl 0 rc.2
        else (-1, 0, rc.2)
      if Int.land mode C.SND_PCM_OPEN_PLAYBACK ≠ 0 ∧ p.1 < 0 then
        (p.1, none, (issue K (.ctl_close ctl) p.2.2).2)
      else open_subdevice_capture C K card device subdevice mode fmode ctl p.1 p.2.1 p.2.2

/-- The call of `snd_pcm_open_channel` for PLAYBACK as `snd_pcm_open_subdevice`
makes it, right after `snd_ctl_open` succeeded. -/
def playback_open (C : Consts) (K : Kernel) (card device subdevice mode : Int) (w : World) :
    Int × Int × World :=
  snd_pcm_open_channel C K card device SND_PCM_CHANNEL_PLAYBACK subdevice (open_fmode C mode)
    (issue K (.ctl_open card) w).1.ptr 0 (issue K (.ctl_open card) w).2

/-- The values of `pfd` and `ver` and the world in `snd_pcm_open_subdevice`
after the block `if (mode & SND_PCM_OPEN_PLAYBACK)`, the control session being
open. -/
def playback_stage (C : Consts) (K : Kernel) (card device subdevice mode : Int) (w : World) :
    Int × Int × World :=
  if Int.land mode C.SND_PCM_OPEN_PLAYBACK ≠ 0 then playback_open C K card device subdevice mode w
  else (-1, 0, (issue K (.ctl_open card) w).2)

/-- The call of `snd_pcm_open_channel` for CAPTURE as `snd_pcm_open_subdevice`
makes it after the PLAYBACK channel was opened. -/
def capture_open (C : Consts) (K : Kernel) (card device subdevice mode : Int) (w : World) :
    Int × Int × World :=
  snd_pcm_open_channel C K card device SND_PCM_CHANNEL_CAPTURE subdevice (open_fmode C mode)
    (issue K (.ctl_open card) w).1.ptr (playback_open C K card device subdevice mode w).2.1
    (playback_open C K card device subdevice mode w).2.2

/-- The values of `*ver` and of the world after the first `i` passes of the
retry loop of `snd_pcm_open_channel`, started from `s`. -/
def after_attempts (C : Consts) (K : Kernel) (card device channel subdevice fmode : Int) :
    Nat → Int × World → Int × World
  | 0, s => s
  | i + 1, s =>
    after_attempts C K card device channel subdevice fmode i
      (open_attempt C K card device channel subdevice fmode s.1 s.2).2

/-- The environment makes the open attempt that starts in world `w` end in a
subdevice mismatch: the device file opens, the version query succeeds and the
version is compatible, the channel info query succeeds and the subdevice it
reports is not the requested one. -/
def attempt_mismatches (C : Consts) (K : Kernel) (card device channel subdevice fmode : Int)
    (w : World) : Prop :=
  0 ≤ (K (w.trace ++ [.sys_open card device channel fmode])).ret ∧
  0 ≤ (K (w.trace ++ [.sys_open card device channel fmode] ++
      [.ioctl_pversion (K (w.trace ++ [.sys_open card device channel fmode])).ret])).ret ∧
  C.SND_PROTOCOL_INCOMPATIBLE
      (K (w.trace ++ [.sys_open card device channel fmode] ++
        [.ioctl_pversion (K (w.trace ++ [.sys_open card device channel fmode])).ret])).ver
      (SND_PCM_VERSION_MAX C) = false ∧
  0 ≤ (K (w.trace ++ [.sys_open card device channel fmode] ++
      [.ioctl_pversion (K (w.trace ++ [.sys_open card device channel fmode])).ret] ++
      [.ioctl_channel_info (K (w.trace ++ [.sys_open card device channel fmode])).ret
        info_zero])).ret ∧
  (K (w.trace ++ [.sys_open card device channel fmode] ++
      [.ioctl_pversion (K (w.trace ++ [.sys_open card device channel fmode])).ret] ++
      [.ioctl_channel_info (K (w.trace ++ [.sys_open card device channel fmode])).ret
        info_zero])).info.subdevice ≠ subdevice

instance (C : Consts) (K : Kernel) (card device channel subdevice fmode : Int) (w : World) :
    Decidable (attempt_mismatches C K card device channel subdevice fmode w) := by
  unfold attempt_mismatches
  infer_instance

/-- The environment makes the open attempt that starts in world `w` meet an
incompatible protocol version: the device file opens, the version query
succeeds and the version it reports is incompatible with the library maximum. -/
def attempt_incompatible (C : Consts) (K : Kernel) (card device channel fmode : Int)
    (w : World) : Prop :=
  0 ≤ (K (w.trace ++ [.sys_open card device channel fmode])).ret ∧
  0 ≤ (K (w.trace ++ [.sys_open card device channel fmode] ++
      [.ioctl_pversion (K (w.trace ++ [.sys_open card device channel fmode])).ret])).ret ∧
  C.SND_PROTOCOL_INCOMPATIBLE
      (K (w.trace ++ [.sys_open card device channel fmode] ++
        [.ioctl_pversion (K (w.trace ++ [.sys_open card device channel fmode])).ret])).ver
      (SND_PCM_VERSION_MAX C) = true

instance (C : Consts) (K : Kernel) (card device channel fmode : Int) (w : World) :
    Decidable (attempt_incompatible C K card device channel fmode w) := by
  unfold attempt_incompatible
  infer_instance

/-- Modelled from the spec: the value of `SND_ERROR_INCOMPATIBLE_VERSION` is
declared in a header that is not among the sources; the spec makes protocol
incompatibility "a distinct error identity separate from generic OS errors",
that is, a value above every error number of the system. -/
def incompatible_error_distinct (C : Consts) : Prop :=
  MAX_ERRNO < C.SND_ERROR_INCOMPATIBLE_VERSION

instance (C : Consts) : Decidable (incompatible_error_distinct C) := by
  unfold incompatible_error_distinct
  infer_instance

/-- The number of `snd_ctl_close` calls in a history. -/
def count_ctl_close (tr : List Call) : Nat :=
  tr.countP (fun c => match c with | .ctl_close _ => true | _ => false)

/-- The number of `open` calls in a history. -/
def count_open (tr : List Call) : Nat :=
  tr.countP (fun c => match c with | .sys_open _ _ _ _ => true | _ => false)

/-- The number of `close` calls in a history. -/
def count_close (tr : List Call) : Nat :=
  tr.countP (fun c => match c with | .sys_close _ => true | _ => false)

/-- The function `snd_pcm_open`. -/
def snd_pcm_open (C : Consts) (K : Kernel) (card device mode : Int) (w : World) :
    Int × Option snd_pcm_t × World :=
  snd_pcm_open_subdevice C K card device (-1) mode w

/-! ## Closing: `snd_pcm_close` -/

/-- One pass of the loop of `snd_pcm_close` for direction `channel`, entered
with the current value of `res`: the new value of `res`, the session object
and the world after the pass.  The result of `snd_pcm_munmap` is not looked at;
`close` has failed when it returns a non-zero value. -/
def close_channel (C : Consts) (K : Kernel) (p : snd_pcm_t) (channel : Int) (res : Int)
    (w : World) : Int × snd_pcm_t × World :=
  let w1 := (issue K (.plugin_munmap channel) w).2
  let w2 := (issue K (.plugin_clear channel) w1).2
  let m := snd_pcm_munmap C K (some p) channel w2
  let p1 := m.2.1.getD p
  if (p1.chan channel).fd ≥ 0 then
    let r := sys_close K (p1.chan channel).fd m.2.2
    if r.1.ret ≠ 0 then (r.1.errno.neg, p1, r.2) else (res, p1, r.2)
  else (res, p1, m.2.2)

/-- The function `snd_pcm_close`: return value and world after the call (the
session object is freed). -/
def snd_pcm_close (C : Consts) (K : Kernel) (pcm : Option snd_pcm_t) (w : World) : Int × World :=
  match pcm with
  | none => (-EINVAL, w)
  | some p =>
    let a := close_channel C K p 0 0 w
    let b := close_channel C K a.2.1 1 a.1 a.2.2
    (b.1, (issue K .free b.2.2).2)

/-- The calls that `snd_pcm_munmap` issues for direction `channel`. -/
def munmap_calls (C : Consts) (p : snd_pcm_t) (channel : Int) : List Call :=
  (if (p.chan channel).mmap_control ≠ NULL then
      [Call.sys_munmap (p.chan channel).mmap_control C.sizeof_mmap_control] else []) ++
  (if (p.chan channel).mmap_data ≠ NULL then
      [Call.sys_munmap (p.chan channel).mmap_data (p.chan channel).mmap_size] else [])

/-- The calls of the teardown of direction `channel` in `snd_pcm_close`, up to
but not including the `close` of the descriptor. -/
def teardown_calls (C : Consts) (p : snd_pcm_t) (channel : Int) : List Call :=
  [Call.plugin_munmap channel, Call.plugin_clear channel] ++ munmap_calls C p channel

/-- The history of calls at the moment `snd_pcm_close` closes the PLAYBACK
descriptor, that `close` included. -/
def playback_close_history (C : Consts) (p : snd_pcm_t) (w : World) : List Call :=
  w.trace ++ teardown_calls C p 0 ++ [Call.sys_close p.playback.fd]

/-- The history of calls at the moment `snd_pcm_close` closes the CAPTURE
descriptor, that `close` included. -/
def capture_close_history (C : Consts) (p : snd_pcm_t) (w : World) : List Call :=
  w.trace ++ teardown_calls C p 0 ++
    (if p.playback.fd ≥ 0 then [Call.sys_close p.playback.fd] else []) ++
    teardown_calls C p 1 ++ [Call.sys_close p.capture.fd]

/-! ## Blocking mode: `snd_pcm_nonblock_mode` -/

/-- One pass of the loop of `snd_pcm_nonblock_mode` for direction `channel`:
`some err` when the pass ends with `return err`, `none` when the loop goes on;
the session object and the world after the pass. -/
def nonblock_channel (C : Consts) (K : Kernel) (p : snd_pcm_t) (channel : Int) (nonblock : Int)
    (w : World) : Option Int × snd_pcm_t × World :=
  let fd := (p.chan channel).fd
  if fd < 0 then (none, p, w)
  else
    let rg := issue K (.fcntl_getfl fd) w
    if rg.1.ret < 0 then (some rg.1.errno.neg, p, rg.2)
    else
      let flags := if nonblock ≠ 0 then Int.lor rg.1.ret O_NONBLOCK
        else Int.land rg.1.ret (Int.lnot O_NONBLOCK)
      let rs := issue K (.fcntl_setfl fd flags) rg.2
      if rs.1.ret < 0 then (some rs.1.errno.neg, p, rs.2)
      else
        (none,
          { p with mode := if nonblock ≠ 0 then Int.lor p.mode C.SND_PCM_OPEN_NONBLOCK
              else Int.land p.mode (Int.lnot C.SND_PCM_OPEN_NONBLOCK) },
          rs.2)

/-- The function `snd_pcm_nonblock_mode`: return value, session object and
world after the call. -/
def snd_pcm_nonblock_mode (C : Consts) (K : Kernel) (pcm : Option snd_pcm_t) (nonblock : Int)
    (w : World) : Int × Option snd_pcm_t × World :=
  match pcm with
  | none => (-EINVAL, pcm, w)
  | some p =>
    let a := nonblock_channel C K p 0 nonblock w
    match a.1 with
    | some err => (err, some a.2.1, a.2.2)
    | none =>
      let b := nonblock_channel C K a.2.1 1 nonblock a.2.2
      match b.1 with
      | some err => (err, some b.2.1, b.2.2)
      | none => (0, some b.2.1, b.2.2)

/-- The flags that a pass of `snd_pcm_nonblock_mode` writes back, computed from
the flags it read. -/
def nonblock_flags (nonblock flags : Int) : Int :=
  if nonblock ≠ 0 then Int.lor flags O_NONBLOCK else Int.land flags (Int.lnot O_NONBLOCK)

/-- The mode flags of the session after a pass of `snd_pcm_nonblock_mode` that
succeeded. -/
def nonblock_mode_flags (C : Consts) (nonblock mode : Int) : Int :=
  if nonblock ≠ 0 then Int.lor mode C.SND_PCM_OPEN_NONBLOCK
  else Int.land mode (Int.lnot C.SND_PCM_OPEN_NONBLOCK)

/-- The flag read `fcntl(fd, F_GETFL)` of a pass that starts in world `w`. -/
def getfl_call (K : Kernel) (fd : Int) (w : World) : Reply × World :=
  issue K (.fcntl_getfl fd) w

/-- The flag write `fcntl(fd, F_SETFL, flags)` of a pass that starts in world
`w`, after its flag read. -/
def setfl_call (K : Kernel) (fd nonblock : Int) (w : World) : Reply × World :=
  issue K (.fcntl_setfl fd (nonblock_flags nonblock (getfl_call K fd w).1.ret))
    (getfl_call K fd w).2

/-! ## Uncached queries: `snd_pcm_voice_setup`, `snd_pcm_channel_status` -/

/-- The function `snd_pcm_voice_setup`: return value, the caller's structure
and the world after the call. -/
def snd_pcm_voice_setup (K : Kernel) (pcm : Option snd_pcm_t) (channel : Int)
    (setup : Option snd_pcm_voice_setup_t) (w : World) :
    Int × Option snd_pcm_voice_setup_t × World :=
  match pcm, setup with
  | some p, some s =>
    if channel < 0 ∨ channel > 1 then (-EINVAL, setup, w)
    else
      let fd := (p.chan channel).fd
      if fd < 0 then (-EINVAL, setup, w)
      else
        let r := issue K (.ioctl_voice_setup fd s) w
        if r.1.ret < 0 then (r.1.errno.neg, some r.1.voice, r.2)
        else (0, some r.1.voice, r.2)
  | _, _ => (-EINVAL, setup, w)

/-- The array access `pcm->chan[channel]` with an index that was not checked:
defined for the two elements of the array only. -/
def snd_pcm_t.chan_unchecked (pcm : snd_pcm_t) (channel : Int) : Option snd_pcm_chan :=
  if channel = 0 then some pcm.playback
  else if channel = 1 then some pcm.capture
  else none

/-- The function `snd_pcm_channel_status`: return value, the caller's structure
and the world after the call.  The source indexes `pcm->chan` with
`status->channel` without a range check; the result is `none` where that access
lies outside the array and the behaviour of the C program is undefined. -/
def snd_pcm_channel_status (K : Kernel) (pcm : Option snd_pcm_t)
    (status : Option snd_pcm_channel_status_t) (w : World) :
    Option (Int × Option snd_pcm_channel_status_t × World) :=
  match pcm, status with
  | some p, some s =>
    match p.chan_unchecked s.channel with
    | none => none
    | some chan =>
      if chan.fd < 0 then some (-EINVAL, status, w)
      else
        let r := issue K (.ioctl_channel_status chan.fd s) w
        if r.1.ret < 0 then some (r.1.errno.neg, some r.1.status, r.2)
        else some (0, some r.1.status, r.2)
  | _, _ => some (-EINVAL, status, w)

/-! ## Transitions: prepare, go, sync-go, drain, flush, pause -/

/-- The function `snd_pcm_playback_prepare`: return value and world after the call. -/
def snd_pcm_playback_prepare (K : Kernel) (pcm : Option snd_pcm_t) (w : World) : Int × World :=
  match pcm with
  | none => (-EINVAL, w)
  | some p =>
    if (p.chan SND_PCM_CHANNEL_PLAYBACK).fd < 0 then (-EINVAL, w)
    else
      let r := issue K (.ioctl_channel_prepare (p.chan SND_PCM_CHANNEL_PLAYBACK).fd) w
      if r.1.ret < 0 then (r.1.errno.neg, r.2) else (0, r.2)

/-- The function `snd_pcm_capture_prepare`: return value and world after the call. -/
def snd_pcm_capture_prepare (K : Kernel) (pcm : Option snd_pcm_t) (w : World) : Int × World :=
  match pcm with
  | none => (-EINVAL, w)
  | some p =>
    if (p.chan SND_PCM_CHANNEL_CAPTURE).fd < 0 then (-EINVAL, w)
    else
      let r := issue K (.ioctl_channel_prepare (p.chan SND_PCM_CHANNEL_CAPTURE).fd) w
      if r.1.ret < 0 then (r.1.errno.neg, r.2) else (0, r.2)

/-- The function `snd_pcm_channel_prepare`: return value and world after the call. -/
def snd_pcm_channel_prepare (K : Kernel) (pcm : Option snd_pcm_t) (channel : Int) (w : World) :
    Int × World :=
  if channel = SND_PCM_CHANNEL_PLAYBACK then snd_pcm_playback_prepare K pcm w
  else if channel = SND_PCM_CHANNEL_CAPTURE then snd_pcm_capture_prepare K pcm w
  else (- EIO, w)

/-- The function `snd_pcm_playback_go`: return value and world after the call. -/
def snd_pcm_playback_go (K : Kernel) (pcm : Option snd_pcm_t) (w : World) : Int × World :=
  match pcm with
  | none => (-EINVAL, w)
  | some p =>
    if (p.chan SND_PCM_CHANNEL_PLAYBACK).fd < 0 then (-EINVAL, w)
    else
      let r := issue K (.ioctl_channel_go (p.chan SND_PCM_CHANNEL_PLAYBACK).fd) w
      if r.1.ret < 0 then (r.1.errno.neg, r.2) else (0, r.2)

/-- The function `snd_pcm_capture_go`: return value and world after the call. -/
def snd_pcm_capture_go (K : Kernel) (pcm : Option snd_pcm_t) (w : World) : Int × World :=
  match pcm with
  | none => (-EINVAL, w)
  | some p =>
    if (p.chan SND_PCM_CHANNEL_CAPTURE).fd < 0 then (-EINVAL, w)
    else
      let r := issue K (.ioctl_channel_go (p.chan SND_PCM_CHANNEL_CAPTURE).fd) w
      if r.1.ret < 0 then (r.1.errno.neg, r.2) else (0, r.2)

/-- The function `snd_pcm_channel_go`: return value and world after the call. -/
def snd_pcm_channel_go (K : Kernel) (pcm : Option snd_pcm_t) (channel : Int) (w : World) :
    Int × World :=
  if channel = SND_PCM_CHANNEL_PLAYBACK then snd_pcm_playback_go K pcm w
  else if channel = SND_PCM_CHANNEL_CAPTURE then snd_pcm_capture_go K pcm w
  else (- EIO, w)

/-- The function `snd_pcm_sync_go`: return value and world after the call;
`sync` is `none` for a null pointer. -/
def snd_pcm_sync_go (K : Kernel) (pcm : Option snd_pcm_t) (sync : Option snd_pcm_sync_t)
    (w : World) : Int × World :=
  match pcm, sync with
  | some p, some s =>
    if (p.chan SND_PCM_CHANNEL_PLAYBACK).fd < 0 then (-EINVAL, w)
    else
      let r := issue K (.ioctl_sync_go (p.chan SND_PCM_CHANNEL_PLAYBACK).fd s) w
      if r.1.ret < 0 then (r.1.errno.neg, r.2) else (0, r.2)
  | _, _ => (-EINVAL, w)

/-- The function `snd_pcm_playback_drain`: return value and world after the call. -/
def snd_pcm_playback_drain (K : Kernel) (pcm : Option snd_pcm_t) (w : World) : Int × World :=
  match pcm with
  | none => (-EINVAL, w)
  | some p =>
    if (p.chan SND_PCM_CHANNEL_PLAYBACK).fd < 0 then (-EINVAL, w)
    else
      let r := issue K (.ioctl_channel_drain (p.chan SND_PCM_CHANNEL_PLAYBACK).fd) w
      if r.1.ret < 0 then (r.1.errno.neg, r.2) else (0, r.2)

/-- The function `snd_pcm_playback_flush`: return value and world after the call. -/
def snd_pcm_playback_flush (K : Kernel) (pcm : Option snd_pcm_t) (w : World) : Int × World :=
  match pcm with
  | none => (-EINVAL, w)
  | some p =>
    if (p.chan SND_PCM_CHANNEL_PLAYBACK).fd < 0 then (-EINVAL, w)
    else
      let r := issue K (.ioctl_channel_flush (p.chan SND_PCM_CHANNEL_PLAYBACK).fd) w
      if r.1.ret < 0 then (r.1.errno.neg, r.2) else (0, r.2)

/-- The function `snd_pcm_capture_flush`: return value and world after the call. -/
def snd_pcm_capture_flush (K : Kernel) (pcm : Option snd_pcm_t) (w : World) : Int × World :=
  match pcm with
  | none => (-EINVAL, w)
  | some p =>
    if (p.chan SND_PCM_CHANNEL_CAPTURE).fd < 0 then (-EINVAL, w)
    else
      let r := issue K (.ioctl_channel_flush (p.chan SND_PCM_CHANNEL_CAPTURE).fd) w
      if r.1.ret < 0 then (r.1.errno.neg, r.2) else (0, r.2)

/-- The function `snd_pcm_channel_flush`: return value and world after the call. -/
def snd_pcm_channel_flush (K : Kernel) (pcm : Option snd_pcm_t) (channel : Int) (w : World) :
    Int × World :=
  if channel = SND_PCM_CHANNEL_PLAYBACK then snd_pcm_playback_flush K pcm w
  else if channel = SND_PCM_CHANNEL_CAPTURE then snd_pcm_capture_flush K pcm w
  else (- EIO, w)

/-- The function `snd_pcm_playback_pause`: return value and world after the call. -/
def snd_pcm_playback_pause (K : Kernel) (pcm : Option snd_pcm_t) (enable : Int) (w : World) :
    Int × World :=
  match pcm with
  | none => (-EINVAL, w)
  | some p =>
    if (p.chan SND_PCM_CHANNEL_PLAYBACK).fd < 0 then (-EINVAL, w)
    else
      let r := issue K (.ioctl_channel_pause (p.chan SND_PCM_CHANNEL_PLAYBACK).fd enable) w
      if r.1.ret < 0 then (r.1.errno.neg, r.2) else (0, r.2)

/-- The outcome of a transition that issues the one request `c` in world `w`:
0 when the request succeeds, the negated OS error when it fails, and the world
with exactly that request added to the history. -/
def one_request (K : Kernel) (c : Call) (w : World) : Int × World :=
  (if (K (w.trace ++ [c])).ret < 0 then (K (w.trace ++ [c])).errno.neg else 0,
    { w with trace := w.trace ++ [c] })

/-! ## Concrete header values and environments for the examples -/

/-- A concrete choice of the header values. -/
def alsa_consts : Consts where
  SND_CARDS := 8
  SND_PCM_OPEN_PLAYBACK := 1
  SND_PCM_OPEN_CAPTURE := 2
  SND_PCM_OPEN_NONBLOCK := 4096
  SND_PCM_MODE_BLOCK := 1
  SND_ERROR_INCOMPATIBLE_VERSION := 500000
  SND_PROTOCOL_VERSION := fun major minor subminor => major * 65536 + minor * 256 + subminor
  SND_PROTOCOL_INCOMPATIBLE := fun k u =>
    decide (k / 65536 ≠ u / 65536 ∨ (k / 256) % 256 ≠ (u / 256) % 256)
  SND_PCM_MMAP_OFFSET_CONTROL := 0
  SND_PCM_MMAP_OFFSET_DATA := 2147483648
  sizeof_mmap_control := 64

/-- A successful reply: version 1.1.0, subdevice 0, a block-mode setup with
fragments of 1024 bytes. -/
def reply_ok : Reply where
  ret := 3
  errno := ⟨5, by decide⟩
  ver := 65792
  info := ⟨0, 0, 8192, 0⟩
  setup := ⟨0, 1, 1024, 0⟩
  ptr := 4096
  voice := ⟨0⟩
  status := ⟨0, 0⟩

/-- A failed reply with `errno` 5. -/
def reply_fail : Reply := { reply_ok with ret := -1, ptr := -1 }

/-- An environment in which every call succeeds: playback opens as descriptor
3 and capture as 4, the control region is mapped at 4096 and the data region
at 65536. -/
def kernel_ok : Kernel := fun tr =>
  match tr.getLast? with
  | some (.sys_open _ _ channel _) => { reply_ok with ret := 3 + channel }
  | some (.sys_mmap _ _ _ _ offset) => { reply_ok with ptr := if offset = 0 then 4096 else 65536 }
  | some (.sys_close _) => { reply_ok with ret := 0 }
  | some (.sys_munmap _ _) => { reply_ok with ret := 0 }
  | some (.sys_write _ _ size) => { reply_ok with ret := size }
  | some (.sys_read _ _ size) => { reply_ok with ret := size }
  | _ => reply_ok

/-- As `kernel_ok`, but every setup query fails. -/
def kernel_setup_fails : Kernel := fun tr =>
  match tr.getLast? with
  | some (.ioctl_channel_setup _ _) => reply_fail
  | _ => kernel_ok tr

/-- As `kernel_ok`, but the capture device cannot be opened. -/
def kernel_capture_fails : Kernel := fun tr =>
  match tr.getLast? with
  | some (.sys_open _ _ 1 _) => reply_fail
  | _ => kernel_ok tr

/-- As `kernel_ok`, but the data region cannot be mapped. -/
def kernel_data_map_fails : Kernel := fun tr =>
  match tr.getLast? with
  | some (.sys_mmap _ _ _ _ 2147483648) => reply_fail
  | _ => kernel_ok tr

/-- As `kernel_ok`, but closing descriptor 3 fails with `errno` 5 and closing
descriptor 4 fails with `errno` 9. -/
def kernel_close_fails : Kernel := fun tr =>
  match tr.getLast? with
  | some (.sys_close 3) => { reply_ok with ret := -1, errno := ⟨5, by decide⟩ }
  | some (.sys_close 4) => { reply_ok with ret := -1, errno := ⟨9, by decide⟩ }
  | _ => kernel_ok tr

/-- As `kernel_ok`, but reading the flags of descriptor 4 fails. -/
def kernel_capture_getfl_fails : Kernel := fun tr =>
  match tr.getLast? with
  | some (.fcntl_getfl 4) => reply_fail
  | _ => kernel_ok tr

/-- As `kernel_ok`, but the device reports protocol version 2.0.0. -/
def kernel_incompatible : Kernel := fun tr =>
  match tr.getLast? with
  | some (.ioctl_pversion _) => { reply_ok with ver := 131072 }
  | _ => kernel_ok tr

/-- The world before anything was opened. -/
def world_empty : World := ⟨[], [], []⟩

/-- A session with only the playback direction open, on descriptor 3. -/
def pcm_playback : snd_pcm_t :=
  { card := 0, device := 0, playback := chan_init 3, capture := chan_init (-1),
    mode := 1, ver := 65792 }

/-- The world in which `pcm_playback` lives. -/
def world_playback : World := ⟨[], [3], []⟩

/-- A session with both directions open, playback on descriptor 3 and capture
on descriptor 4. -/
def pcm_duplex : snd_pcm_t :=
  { card := 0, device := 0, playback := chan_init 3, capture := chan_init 4,
    mode := 3, ver := 65792 }

/-- The world in which `pcm_duplex` lives. -/
def world_duplex : World := ⟨[], [4, 3], []⟩

/-- The session `pcm_playback` after a successful setup query in the
environment `kernel_ok`: the playback cache is valid. -/
def pcm_playback_cached : snd_pcm_t :=
  { pcm_playback with
    playback := { chan_init 3 with setup_is_valid := true, setup := ⟨0, 1, 1024, 0⟩ } }

/-- A parameter request for the playback direction. -/
def params_playback : snd_pcm_channel_params_t := ⟨0, 7⟩

/-! ## Basic facts about the model -/

theorem Errno.neg_lt_zero (e : Errno) : e.neg < 0 := by
  have h := e.pos
  unfold Errno.neg
  omega

theorem Errno.not_nonneg (e : Errno) : ¬ 0 ≤ e.neg := not_le.mpr e.neg_lt_zero

theorem Errno.neg_ne_zero (e : Errno) : e.neg ≠ 0 := ne_of_lt e.neg_lt_zero

theorem chan_setChan (p : snd_pcm_t) (d : Int) (c : snd_pcm_chan) :
    (p.setChan d c).chan d = c := by
  unfold snd_pcm_t.setChan snd_pcm_t.chan
  by_cases h : d = 0 <;> simp [h]

theorem setChan_chan (p : snd_pcm_t) (d : Int) : p.setChan d (p.chan d) = p := by
  unfold snd_pcm_t.setChan snd_pcm_t.chan
  by_cases h : d = 0 <;> simp [h]

theorem setChan_setChan (p : snd_pcm_t) (d : Int) (c c1 : snd_pcm_chan) :
    (p.setChan d c).setChan d c1 = p.setChan d c1 := by
  unfold snd_pcm_t.setChan
  by_cases h : d = 0 <;> simp [h]

theorem channel_in_range {d : Int} (hd : d = 0 ∨ d = 1) : ¬ (d < 0 ∨ d > 1) := by
  omega

/-! ## The setup cache -/

/-- A valid cache is served without a device call and without any change. -/
theorem setup_cache_hit (K : Kernel) (p : snd_pcm_t) (s : snd_pcm_channel_setup_t) (w : World)
    (hd : s.channel = 0 ∨ s.channel = 1) (hfd : 0 ≤ (p.chan s.channel).fd)
    (hv : (p.chan s.channel).setup_is_valid = true) :
    snd_pcm_channel_setup K (some p) (some s) w = (0, some p, some (p.chan s.channel).setup, w) := by
  have h1 : ¬ (s.channel < 0 ∨ s.channel > 1) := channel_in_range hd
  have h2 : ¬ (p.chan s.channel).fd < 0 := by omega
  simp only [snd_pcm_channel_setup, h1, h2, hv, if_true, if_false]

/-- A successful call leaves the slot valid, holding the value it returned. -/
theorem setup_success_fills (K : Kernel) (p : snd_pcm_t) (s : snd_pcm_channel_setup_t) (w : World)
    (h0 : (snd_pcm_channel_setup K (some p) (some s) w).1 = 0) :
    ∃ p1, (snd_pcm_channel_setup K (some p) (some s) w).2.1 = some p1 ∧
      (p1.chan s.channel).setup_is_valid = true ∧
      (p1.chan s.channel).fd = (p.chan s.channel).fd ∧
      (snd_pcm_channel_setup K (some p) (some s) w).2.2.1 = some (p1.chan s.channel).setup := by
  have hE : (-EINVAL : Int) ≠ 0 := by decide
  unfold snd_pcm_channel_setup at h0 ⊢
  simp only at h0 ⊢
  split_ifs at h0 ⊢ with h1 h2 h3 h4
  · exact absurd h0 hE
  · exact absurd h0 hE
  · exact ⟨p, rfl, h3, rfl, rfl⟩
  · exact absurd h0 (Errno.neg_ne_zero _)
  · exact ⟨_, rfl, by rw [chan_setChan], by rw [chan_setChan], by rw [chan_setChan]⟩

/-- C1: for a direction d in {PLAYBACK, CAPTURE} whose descriptor is open, if
`snd_pcm_channel_setup` for d returns 0, then a later `snd_pcm_channel_setup`
for d, on any session state whose slot d is as the first call left it (no
parameter call in between) and in any state of the world, returns 0, leaves in
the caller's structure exactly the value the first call left there, issues no
call at all (the world, its history of calls included, is unchanged) and does
not change the session object. -/
theorem setup_twice_is_cache_hit (K : Kernel) (p : snd_pcm_t) (d : Int)
    (s : snd_pcm_channel_setup_t) (w : World)
    (hd : d = SND_PCM_CHANNEL_PLAYBACK ∨ d = SND_PCM_CHANNEL_CAPTURE)
    (hfd : 0 ≤ (p.chan d).fd) (hs : s.channel = d)
    (h0 : (snd_pcm_channel_setup K (some p) (some s) w).1 = 0)
    (p1 p2 : snd_pcm_t) (s2 : snd_pcm_channel_setup_t) (w2 : World)
    (hp1 : (snd_pcm_channel_setup K (some p) (some s) w).2.1 = some p1)
    (hp2 : p2.chan d = p1.chan d) (hs2 : s2.channel = d) :
    snd_pcm_channel_setup K (some p2) (some s2) w2
      = (0, some p2, (snd_pcm_channel_setup K (some p) (some s) w).2.2.1, w2) := by
  obtain ⟨q, hq, hv, hfd1, hval⟩ := setup_success_fills K p s w h0
  rw [hp1] at hq
  cases hq
  subst hs
  have hd2 : s2.channel = 0 ∨ s2.channel = 1 := by
    rw [hs2]; simpa [SND_PCM_CHANNEL_PLAYBACK, SND_PCM_CHANNEL_CAPTURE] using hd
  rw [setup_cache_hit K p2 s2 w2 hd2 (by rw [hs2, hp2, hfd1]; exact hfd) (by rw [hs2, hp2]; exact hv)]
  rw [hval, hs2, hp2]

/-- An invalid cache makes `snd_pcm_channel_setup` query the device; a failed
query leaves the session object as it was. -/
theorem setup_cache_miss_fail (K : Kernel) (p : snd_pcm_t) (s : snd_pcm_channel_setup_t)
    (w : World) (hd : s.channel = 0 ∨ s.channel = 1) (hfd : 0 ≤ (p.chan s.channel).fd)
    (hv : (p.chan s.channel).setup_is_valid = false)
    (hr : (issue K (.ioctl_channel_setup (p.chan s.channel).fd s) w).1.ret < 0) :
    snd_pcm_channel_setup K (some p) (some s) w =
      ((issue K (.ioctl_channel_setup (p.chan s.channel).fd s) w).1.errno.neg, some p,
        some (issue K (.ioctl_channel_setup (p.chan s.channel).fd s) w).1.setup,
        (issue K (.ioctl_channel_setup (p.chan s.channel).fd s) w).2) := by
  have h1 : ¬ (s.channel < 0 ∨ s.channel > 1) := channel_in_range hd
  have h2 : ¬ (p.chan s.channel).fd < 0 := by omega
  simp only [snd_pcm_channel_setup, h1, h2, hv, hr, if_true, if_false, Bool.false_eq_true]

/-- An invalid cache makes `snd_pcm_channel_setup` query the device; a
successful query is stored in the slot, which becomes valid. -/
theorem setup_cache_miss_ok (K : Kernel) (p : snd_pcm_t) (s : snd_pcm_channel_setup_t)
    (w : World) (hd : s.channel = 0 ∨ s.channel = 1) (hfd : 0 ≤ (p.chan s.channel).fd)
    (hv : (p.chan s.channel).setup_is_valid = false)
    (hr : ¬ (issue K (.ioctl_channel_setup (p.chan s.channel).fd s) w).1.ret < 0) :
    snd_pcm_channel_setup K (some p) (some s) w =
      (0, some (p.setChan s.channel { p.chan s.channel with
          setup := (issue K (.ioctl_channel_setup (p.chan s.channel).fd s) w).1.setup,
          setup_is_valid := true }),
        some (issue K (.ioctl_channel_setup (p.chan s.channel).fd s) w).1.setup,
        (issue K (.ioctl_channel_setup (p.chan s.channel).fd s) w).2) := by
  have h1 : ¬ (s.channel < 0 ∨ s.channel > 1) := channel_in_range hd
  have h2 : ¬ (p.chan s.channel).fd < 0 := by omega
  simp only [snd_pcm_channel_setup, h1, h2, hv, hr, if_true, if_false, Bool.false_eq_true]

/-- What `snd_pcm_channel_params` does when its device request has succeeded
and the re-query of the setup fails. -/
theorem params_requery_fail (K : Kernel) (p : snd_pcm_t) (prm : snd_pcm_channel_params_t)
    (w : World) (hd : prm.channel = 0 ∨ prm.channel = 1) (hfd : 0 ≤ (p.chan prm.channel).fd)
    (hok : ¬ (issue K (.ioctl_channel_params (p.chan prm.channel).fd prm) w).1.ret < 0)
    (hq : (issue K (.ioctl_channel_setup (p.chan prm.channel).fd (requery_arg prm.channel))
            (issue K (.ioctl_channel_params (p.chan prm.channel).fd prm) w).2).1.ret < 0) :
    snd_pcm_channel_params K (some p) (some prm) w =
      ((issue K (.ioctl_channel_setup (p.chan prm.channel).fd (requery_arg prm.channel))
            (issue K (.ioctl_channel_params (p.chan prm.channel).fd prm) w).2).1.errno.neg,
       some (p.setChan prm.channel { p.chan prm.channel with
          setup_is_valid := false,
          setup := (issue K (.ioctl_channel_setup (p.chan prm.channel).fd (requery_arg prm.channel))
            (issue K (.ioctl_channel_params (p.chan prm.channel).fd prm) w).2).1.setup }),
       (issue K (.ioctl_channel_setup (p.chan prm.channel).fd (requery_arg prm.channel))
            (issue K (.ioctl_channel_params (p.chan prm.channel).fd prm) w).2).2) := by
  have h1 : ¬ (prm.channel < 0 ∨ prm.channel > 1) := channel_in_range hd
  have h2 : ¬ (p.chan prm.channel).fd < 0 := by omega
  have hm := setup_cache_miss_fail K
    (p.setChan prm.channel { p.chan prm.channel with
      setup_is_valid := false, setup := requery_arg prm.channel })
    (requery_arg prm.channel) (issue K (.ioctl_channel_params (p.chan prm.channel).fd prm) w).2
    hd (by simpa [requery_arg, chan_setChan] using hfd) (by simp [requery_arg, chan_setChan])
    (by simpa [requery_arg, chan_setChan] using hq)
  simp only [requery_arg, chan_setChan] at hm hq
  simp only [snd_pcm_channel_params, h1, h2, hok, if_false, requery_arg, hm, setup_alias,
    chan_setChan, setChan_setChan, Errno.neg_lt_zero, if_true]

/-- What `snd_pcm_channel_params` does when its device request has succeeded
and the re-query of the setup succeeds. -/
theorem params_requery_ok (K : Kernel) (p : snd_pcm_t) (prm : snd_pcm_channel_params_t)
    (w : World) (hd : prm.channel = 0 ∨ prm.channel = 1) (hfd : 0 ≤ (p.chan prm.channel).fd)
    (hok : ¬ (issue K (.ioctl_channel_params (p.chan prm.channel).fd prm) w).1.ret < 0)
    (hq : ¬ (issue K (.ioctl_channel_setup (p.chan prm.channel).fd (requery_arg prm.channel))
            (issue K (.ioctl_channel_params (p.chan prm.channel).fd prm) w).2).1.ret < 0) :
    snd_pcm_channel_params K (some p) (some prm) w =
      (0,
       some (p.setChan prm.channel { p.chan prm.channel with
          setup_is_valid := true,
          setup := (issue K (.ioctl_channel_setup (p.chan prm.channel).fd (requery_arg prm.channel))
            (issue K (.ioctl_channel_params (p.chan prm.channel).fd prm) w).2).1.setup }),
       (issue K (.ioctl_channel_setup (p.chan prm.channel).fd (requery_arg prm.channel))
            (issue K (.ioctl_channel_params (p.chan prm.channel).fd prm) w).2).2) := by
  have h1 : ¬ (prm.channel < 0 ∨ prm.channel > 1) := channel_in_range hd
  have h2 : ¬ (p.chan prm.channel).fd < 0 := by omega
  have hm := setup_cache_miss_ok K
    (p.setChan prm.channel { p.chan prm.channel with
      setup_is_valid := false, setup := requery_arg prm.channel })
    (requery_arg prm.channel) (issue K (.ioctl_channel_params (p.chan prm.channel).fd prm) w).2
    hd (by simpa [requery_arg, chan_setChan] using hfd) (by simp [requery_arg, chan_setChan])
    (by simpa [requery_arg, chan_setChan] using hq)
  simp only [requery_arg, chan_setChan, setChan_setChan] at hm hq
  simp only [snd_pcm_channel_params, h1, h2, hok, if_false, requery_arg, hm, setup_alias,
    chan_setChan, setChan_setChan, lt_self_iff_false]

theorem issue_fst (K : Kernel) (c : Call) (w : World) : (issue K c w).1 = K (w.trace ++ [c]) := rfl

theorem issue_trace (K : Kernel) (c : Call) (w : World) :
    (issue K c w).2.trace = w.trace ++ [c] := rfl

theorem issue_fds (K : Kernel) (c : Call) (w : World) : (issue K c w).2.fds = w.fds := rfl

theorem issue_maps (K : Kernel) (c : Call) (w : World) : (issue K c w).2.maps = w.maps := rfl

/-- The cache contents before a successful parameter request do not matter. -/
theorem params_forgets_cache (K : Kernel) (p : snd_pcm_t) (prm : snd_pcm_channel_params_t)
    (w : World) (old : snd_pcm_channel_setup_t) (b : Bool)
    (hd : prm.channel = 0 ∨ prm.channel = 1) (hfd : 0 ≤ (p.chan prm.channel).fd)
    (hok : ¬ (issue K (.ioctl_channel_params (p.chan prm.channel).fd prm) w).1.ret < 0) :
    snd_pcm_channel_params K
        (some (p.setChan prm.channel { p.chan prm.channel with setup := old, setup_is_valid := b }))
        (some prm) w
      = snd_pcm_channel_params K (some p) (some prm) w := by
  have h1 : ¬ (prm.channel < 0 ∨ prm.channel > 1) := channel_in_range hd
  have h2 : ¬ (p.chan prm.channel).fd < 0 := by omega
  simp only [snd_pcm_channel_params, h1, h2, hok, if_false, chan_setChan, setChan_setChan]

/-- C2: once the parameter request of `snd_pcm_channel_params` has succeeded,
the `snd_pcm_channel_setup` that follows for that channel either returns an
error, or returns 0 with a value that is the reply of a successful setup query
issued to the device after the parameter request; and the whole outcome is the
same whatever the cache held (value and validity flag) before the parameter
call, so the value cached before is never what is served. -/
theorem setup_after_params_is_fresh (K : Kernel) (p : snd_pcm_t)
    (prm : snd_pcm_channel_params_t) (s : snd_pcm_channel_setup_t) (w : World) (d : Int)
    (hd : d = SND_PCM_CHANNEL_PLAYBACK ∨ d = SND_PCM_CHANNEL_CAPTURE)
    (hprm : prm.channel = d) (hs : s.channel = d) (hfd : 0 ≤ (p.chan d).fd)
    (hok : ¬ (issue K (.ioctl_channel_params (p.chan d).fd prm) w).1.ret < 0) :
    ((params_then_setup K (some p) prm s w).1 < 0 ∨
      ((params_then_setup K (some p) prm s w).1 = 0 ∧
        ∃ pre arg,
          (w.trace ++ [Call.ioctl_channel_params (p.chan d).fd prm]) <+: pre ∧
          (pre ++ [Call.ioctl_channel_setup (p.chan d).fd arg])
            <+: (params_then_setup K (some p) prm s w).2.2.2.trace ∧
          ¬ (K (pre ++ [Call.ioctl_channel_setup (p.chan d).fd arg])).ret < 0 ∧
          (params_then_setup K (some p) prm s w).2.2.1
            = some (K (pre ++ [Call.ioctl_channel_setup (p.chan d).fd arg])).setup)) ∧
    ∀ (old : snd_pcm_channel_setup_t) (b : Bool),
      params_then_setup K
          (some (p.setChan d { p.chan d with setup := old, setup_is_valid := b })) prm s w
        = params_then_setup K (some p) prm s w := by
  subst hprm
  have hd1 : prm.channel = 0 ∨ prm.channel = 1 := by
    simpa [SND_PCM_CHANNEL_PLAYBACK, SND_PCM_CHANNEL_CAPTURE] using hd
  have hd2 : s.channel = 0 ∨ s.channel = 1 := by rw [hs]; exact hd1
  refine ⟨?_, fun old b => ?_⟩
  · unfold params_then_setup
    by_cases hq : (issue K (.ioctl_channel_setup (p.chan prm.channel).fd (requery_arg prm.channel))
            (issue K (.ioctl_channel_params (p.chan prm.channel).fd prm) w).2).1.ret < 0
    · rw [params_requery_fail K p prm w hd1 hfd hok hq]
      simp only
      by_cases hr : (issue K (.ioctl_channel_setup (p.chan prm.channel).fd s)
          (issue K (.ioctl_channel_setup (p.chan prm.channel).fd (requery_arg prm.channel))
            (issue K (.ioctl_channel_params (p.chan prm.channel).fd prm) w).2).2).1.ret < 0
      · left
        rw [setup_cache_miss_fail K _ s _ hd2 (by rw [hs, chan_setChan]; exact hfd)
          (by rw [hs, chan_setChan]) (by rw [hs, chan_setChan]; exact hr)]
        exact Errno.neg_lt_zero _
      · right
        rw [setup_cache_miss_ok K _ s _ hd2 (by rw [hs, chan_setChan]; exact hfd)
          (by rw [hs, chan_setChan]) (by rw [hs, chan_setChan]; exact hr)]
        refine ⟨rfl, (w.trace ++ [Call.ioctl_channel_params (p.chan prm.channel).fd prm])
          ++ [Call.ioctl_channel_setup (p.chan prm.channel).fd (requery_arg prm.channel)], s,
          List.prefix_append _ _, ?_, ?_, ?_⟩
        · simp only [hs, chan_setChan, issue_trace]
          exact List.prefix_refl _
        · simpa only [issue_fst, issue_trace] using hr
        · simp only [hs, chan_setChan, issue_fst, issue_trace]
    · rw [params_requery_ok K p prm w hd1 hfd hok hq]
      simp only
      right
      rw [setup_cache_hit K _ s _ hd2 (by rw [hs, chan_setChan]; exact hfd)
        (by rw [hs, chan_setChan])]
      refine ⟨rfl, w.trace ++ [Call.ioctl_channel_params (p.chan prm.channel).fd prm],
        requery_arg prm.channel, List.prefix_refl _, ?_, ?_, ?_⟩
      · simp only [issue_trace]
        exact List.prefix_refl _
      · simpa only [issue_fst, issue_trace] using hq
      · simp only [hs, chan_setChan, issue_fst, issue_trace]
  · unfold params_then_setup
    rw [params_forgets_cache K p prm w old b hd1 hfd hok]

/-- C3, as the code has it: when the parameter request succeeds and the eager
re-query of the setup fails, `snd_pcm_channel_params` returns the negated OS
error of the re-query, a negative value and not 0, and the channel's setup
cache is left invalid (descriptor unchanged). -/
theorem params_requery_failure_is_returned (K : Kernel) (p : snd_pcm_t)
    (prm : snd_pcm_channel_params_t) (w : World) (d : Int)
    (hd : d = SND_PCM_CHANNEL_PLAYBACK ∨ d = SND_PCM_CHANNEL_CAPTURE)
    (hprm : prm.channel = d) (hfd : 0 ≤ (p.chan d).fd)
    (hok : ¬ (issue K (.ioctl_channel_params (p.chan d).fd prm) w).1.ret < 0)
    (hq : (issue K (.ioctl_channel_setup (p.chan d).fd (requery_arg d))
            (issue K (.ioctl_channel_params (p.chan d).fd prm) w).2).1.ret < 0) :
    (snd_pcm_channel_params K (some p) (some prm) w).1
        = (issue K (.ioctl_channel_setup (p.chan d).fd (requery_arg d))
            (issue K (.ioctl_channel_params (p.chan d).fd prm) w).2).1.errno.neg ∧
    (snd_pcm_channel_params K (some p) (some prm) w).1 < 0 ∧
    ∃ p1, (snd_pcm_channel_params K (some p) (some prm) w).2.1 = some p1 ∧
      (p1.chan d).setup_is_valid = false ∧ (p1.chan d).fd = (p.chan d).fd := by
  subst hprm
  have hd1 : prm.channel = 0 ∨ prm.channel = 1 := by
    simpa [SND_PCM_CHANNEL_PLAYBACK, SND_PCM_CHANNEL_CAPTURE] using hd
  rw [params_requery_fail K p prm w hd1 hfd hok hq]
  exact ⟨rfl, Errno.neg_lt_zero _, _, rfl, by rw [chan_setChan], by rw [chan_setChan]⟩

/-! ## The retry loop of `snd_pcm_open_channel` -/

/-- Past the attempt limit the loop closes the control session and reports busy. -/
theorem again_busy (C : Consts) (K : Kernel) (card device channel subdevice fmode ctl : Int)
    (attempt : Nat) (ver : Int) (w : World) (h : attempt > 3) :
    snd_pcm_open_channel_again C K card device channel subdevice fmode ctl attempt ver w
      = (-EBUSY, ver, (issue K (.ctl_close ctl) w).2) := by
  rw [snd_pcm_open_channel_again]
  simp only [h, dif_pos]

/-- Within the limit, an attempt that ends with `return` ends the loop. -/
theorem again_ret (C : Consts) (K : Kernel) (card device channel subdevice fmode ctl : Int)
    (attempt : Nat) (ver : Int) (w : World) (v : Int) (h : ¬ attempt > 3)
    (ha : (open_attempt C K card device channel subdevice fmode ver w).1 = .ret v) :
    snd_pcm_open_channel_again C K card device channel subdevice fmode ctl attempt ver w
      = (v, (open_attempt C K card device channel subdevice fmode ver w).2.1,
          (open_attempt C K card device channel subdevice fmode ver w).2.2) := by
  rw [snd_pcm_open_channel_again]
  simp only [h, dif_neg, not_false_eq_true, ha]

/-- Within the limit, an attempt that ends with `goto __again` starts the next one. -/
theorem again_again (C : Consts) (K : Kernel) (card device channel subdevice fmode ctl : Int)
    (attempt : Nat) (ver : Int) (w : World) (h : ¬ attempt > 3)
    (ha : (open_attempt C K card device channel subdevice fmode ver w).1 = .again) :
    snd_pcm_open_channel_again C K card device channel subdevice fmode ctl attempt ver w
      = snd_pcm_open_channel_again C K card device channel subdevice fmode ctl (attempt + 1)
          (open_attempt C K card device channel subdevice fmode ver w).2.1
          (open_attempt C K card device channel subdevice fmode ver w).2.2 := by
  rw [snd_pcm_open_channel_again]
  simp only [h, dif_neg, not_false_eq_true, ha]

/-- A handle produced by `open_subdevice_finish` holds `cfd` in its capture slot. -/
theorem finish_capture_slot (K : Kernel) (card device mode ctl pfd cfd ver : Int) (w : World)
    (pcm : snd_pcm_t)
    (h : (open_subdevice_finish K card device mode ctl pfd cfd ver w).2.1 = some pcm) :
    pcm.capture.fd = cfd ∧ pcm.playback.fd = pfd := by
  unfold open_subdevice_finish at h
  simp only at h
  split_ifs at h
  all_goals (cases h; exact ⟨rfl, rfl⟩)

/-- A handle opened without CAPTURE requested holds -1 in its capture slot, and
that is what `snd_pcm_file_descriptor` returns for CAPTURE. -/
theorem open_without_capture (C : Consts) (K : Kernel) (card device subdevice mode : Int)
    (w : World) (pcm : snd_pcm_t) (hm : Int.land mode C.SND_PCM_OPEN_CAPTURE = 0)
    (hopen : (snd_pcm_open_subdevice C K card device subdevice mode w).2.1 = some pcm) :
    snd_pcm_file_descriptor (some pcm) SND_PCM_CHANNEL_CAPTURE = -1 := by
  have key : ∀ fmode ctl pfd ver w1,
      (open_subdevice_capture C K card device subdevice mode fmode ctl pfd ver w1).2.1 = some pcm →
      pcm.capture.fd = -1 := by
    intro fmode ctl pfd ver w1 h
    unfold open_subdevice_capture at h
    simp only [hm, ne_eq, not_true_eq_false, if_false, false_and] at h
    exact (finish_capture_slot K _ _ _ _ _ _ _ _ pcm h).1
  have hc : pcm.capture.fd = -1 := by
    unfold snd_pcm_open_subdevice at hopen
    simp only at hopen
    split_ifs at hopen
    all_goals exact key _ _ _ _ _ hopen
  simp [snd_pcm_file_descriptor, SND_PCM_CHANNEL_CAPTURE, snd_pcm_t.chan, hc]

/-! ## Descriptors opened and closed by `snd_pcm_open_channel` -/

theorem sys_close_fds (K : Kernel) (fd : Int) (w : World) :
    (sys_close K fd w).2.fds = w.fds.erase fd := rfl

/-- One attempt leaves the descriptor table as it was, unless it returns a
non-negative value through the final `return fd`, which is then the one new
open descriptor. -/
theorem open_attempt_fds (C : Consts) (K : Kernel) (card device channel subdevice fmode : Int)
    (ver : Int) (w : World) :
    ((open_attempt C K card device channel subdevice fmode ver w).1 = .again →
      (open_attempt C K card device channel subdevice fmode ver w).2.2.fds = w.fds) ∧
    (∀ v, (open_attempt C K card device channel subdevice fmode ver w).1 = .ret v → v < 0 →
      (open_attempt C K card device channel subdevice fmode ver w).2.2.fds = w.fds) ∧
    (0 < C.SND_ERROR_INCOMPATIBLE_VERSION →
      ∀ v, (open_attempt C K card device channel subdevice fmode ver w).1 = .ret v → 0 ≤ v →
      (open_attempt C K card device channel subdevice fmode ver w).2.2.fds = v :: w.fds) := by
  unfold open_attempt sys_open
  simp only
  split_ifs with h1 h2 h3 h4 h5 h6
  all_goals simp only [sys_close_fds, issue_fds, List.erase_cons_head, reduceCtorEq,
    false_implies, Attempt.ret.injEq, forall_eq', implies_true, true_and, and_true]
  all_goals first
    | (intro _ hn; exact absurd hn (Errno.not_nonneg _))
    | (intro hv hn; omega)
    | (intro hn; exact absurd hn h1)


/-- The retry loop leaves the descriptor table as it was when it returns a
negative value, and with exactly the returned descriptor added otherwise. -/
theorem again_fds (C : Consts) (K : Kernel) (card device channel subdevice fmode ctl : Int)
    (hver : 0 < C.SND_ERROR_INCOMPATIBLE_VERSION) (k : Nat) :
    ∀ (attempt : Nat) (ver : Int) (w : World), 4 ≤ attempt + k →
      ((snd_pcm_open_channel_again C K card device channel subdevice fmode ctl attempt ver w).1 < 0 →
        (snd_pcm_open_channel_again C K card device channel subdevice fmode ctl attempt ver w).2.2.fds
          = w.fds) ∧
      (0 ≤ (snd_pcm_open_channel_again C K card device channel subdevice fmode ctl attempt ver w).1 →
        (snd_pcm_open_channel_again C K card device channel subdevice fmode ctl attempt ver w).2.2.fds
          = (snd_pcm_open_channel_again C K card device channel subdevice fmode ctl attempt ver w).1
              :: w.fds) := by
  induction k with
  | zero =>
    intro attempt ver w h
    rw [again_busy C K card device channel subdevice fmode ctl attempt ver w (by omega)]
    exact ⟨fun _ => rfl, fun h0 => absurd (show (0 : Int) ≤ -EBUSY from h0) (by decide)⟩
  | succ k ih =>
    intro attempt ver w h
    by_cases hb : attempt > 3
    · rw [again_busy C K card device channel subdevice fmode ctl attempt ver w hb]
      exact ⟨fun _ => rfl, fun h0 => absurd (show (0 : Int) ≤ -EBUSY from h0) (by decide)⟩
    · obtain ⟨ha, hn, hp⟩ := open_attempt_fds C K card device channel subdevice fmode ver w
      cases hcase : (open_attempt C K card device channel subdevice fmode ver w).1 with
      | ret v =>
        rw [again_ret C K card device channel subdevice fmode ctl attempt ver w v hb hcase]
        exact ⟨fun h0 => hn v hcase h0, fun h0 => hp hver v hcase h0⟩
      | again =>
        rw [again_again C K card device channel subdevice fmode ctl attempt ver w hb hcase]
        have := ih (attempt + 1) (open_attempt C K card device channel subdevice fmode ver w).2.1
          (open_attempt C K card device channel subdevice fmode ver w).2.2 (by omega)
        rw [ha hcase] at this
        exact this

/-- The function `snd_pcm_open_channel` leaves the descriptor table as it was
when it returns a negative value, and with exactly the returned descriptor
added otherwise. -/
theorem open_channel_fds (C : Consts) (K : Kernel) (card device channel subdevice fmode ctl : Int)
    (ver : Int) (w : World) (hver : 0 < C.SND_ERROR_INCOMPATIBLE_VERSION) :
    ((snd_pcm_open_channel C K card device channel subdevice fmode ctl ver w).1 < 0 →
      (snd_pcm_open_channel C K card device channel subdevice fmode ctl ver w).2.2.fds = w.fds) ∧
    (0 ≤ (snd_pcm_open_channel C K card device channel subdevice fmode ctl ver w).1 →
      (snd_pcm_open_channel C K card device channel subdevice fmode ctl ver w).2.2.fds
        = (snd_pcm_open_channel C K card device channel subdevice fmode ctl ver w).1 :: w.fds) := by
  unfold snd_pcm_open_channel
  simp only
  split_ifs with h1 h2
  · exact ⟨fun _ => rfl, fun h0 => absurd h0 (by omega)⟩
  · exact again_fds C K card device channel subdevice fmode ctl hver 4 0 ver _ (by omega)
  · exact ⟨fun _ => rfl, fun h0 => absurd (show (0 : Int) ≤ -EINVAL from h0) (by decide)⟩

/-- What `snd_pcm_open_subdevice` does when both directions are requested, the
playback channel opens and the capture channel does not. -/
theorem open_subdevice_capture_fails (C : Consts) (K : Kernel) (card device subdevice mode : Int)
    (w : World) (hcard : ¬ (card < 0 ∨ card ≥ C.SND_CARDS))
    (hctl : ¬ (issue K (.ctl_open card) w).1.ret < 0)
    (hP : Int.land mode C.SND_PCM_OPEN_PLAYBACK ≠ 0)
    (hCa : Int.land mode C.SND_PCM_OPEN_CAPTURE ≠ 0)
    (hp : 0 ≤ (playback_open C K card device subdevice mode w).1)
    (hc : (capture_open C K card device subdevice mode w).1 < 0) :
    snd_pcm_open_subdevice C K card device subdevice mode w =
      ((capture_open C K card device subdevice mode w).1, none,
        (issue K (.ctl_close (issue K (.ctl_open card) w).1.ptr)
          (sys_close K (playback_open C K card device subdevice mode w).1
            (capture_open C K card device subdevice mode w).2.2).2).2) := by
  have hp1 : ¬ (playback_open C K card device subdevice mode w).1 < 0 := by omega
  unfold capture_open at hc ⊢
  unfold playback_open at hp hp1 hc ⊢
  simp only [snd_pcm_open_subdevice, open_subdevice_capture, hcard, hctl, hP, hCa, hp, hp1, hc,
    if_false, if_true, ne_eq, not_false_eq_true, true_and, and_true, and_false, and_self, ge_iff_le]


/-! ## The attempt limit -/

/-- An attempt that meets a subdevice mismatch ends with `goto __again`, after
exactly one `open` and one `close`, with the descriptor table as before. -/
theorem mismatch_attempt (C : Consts) (K : Kernel) (card device channel subdevice fmode : Int)
    (ver : Int) (w : World) (hsub : 0 ≤ subdevice)
    (hm : attempt_mismatches C K card device channel subdevice fmode w) :
    (open_attempt C K card device channel subdevice fmode ver w).1 = .again ∧
    (open_attempt C K card device channel subdevice fmode ver w).2.2.fds = w.fds ∧
    count_open (open_attempt C K card device channel subdevice fmode ver w).2.2.trace
      = count_open w.trace + 1 ∧
    count_close (open_attempt C K card device channel subdevice fmode ver w).2.2.trace
      = count_close w.trace + 1 := by
  obtain ⟨h1, h2, h3, h4, h5⟩ := hm
  have h1' : ¬ (K (w.trace ++ [.sys_open card device channel fmode])).ret < 0 := by omega
  have h2' := not_lt.mpr h2
  have h4' := not_lt.mpr h4
  simp only [open_attempt, sys_open, sys_close, issue, h1', h2', h3, h4', h5, if_false, hsub,
    ge_iff_le, if_true, ne_eq, not_false_eq_true, List.erase_cons_head, count_open, count_close,
    List.countP_append, List.countP_cons, List.countP_nil, Bool.false_eq_true, true_and]

/-- When the next `k` attempts all meet a subdevice mismatch and they use up
the attempt limit, the loop returns -EBUSY after exactly `k` opens and `k`
closes, with the descriptor table as before. -/
theorem again_mismatches (C : Consts) (K : Kernel) (card device channel subdevice fmode ctl : Int)
    (hsub : 0 ≤ subdevice) (k : Nat) :
    ∀ (attempt : Nat) (ver : Int) (w : World), attempt + k = 4 →
      (∀ i, i < k → attempt_mismatches C K card device channel subdevice fmode
        (after_attempts C K card device channel subdevice fmode i (ver, w)).2) →
      snd_pcm_open_channel_again C K card device channel subdevice fmode ctl attempt ver w
        = (-EBUSY, (after_attempts C K card device channel subdevice fmode k (ver, w)).1,
            (issue K (.ctl_close ctl)
              (after_attempts C K card device channel subdevice fmode k (ver, w)).2).2) ∧
      (after_attempts C K card device channel subdevice fmode k (ver, w)).2.fds = w.fds ∧
      count_open (after_attempts C K card device channel subdevice fmode k (ver, w)).2.trace
        = count_open w.trace + k ∧
      count_close (after_attempts C K card device channel subdevice fmode k (ver, w)).2.trace
        = count_close w.trace + k := by
  induction k with
  | zero =>
    intro attempt ver w h _
    rw [again_busy C K card device channel subdevice fmode ctl attempt ver w (by omega)]
    exact ⟨rfl, rfl, rfl, rfl⟩
  | succ k ih =>
    intro attempt ver w h hm
    obtain ⟨ha, hf, ho, hc⟩ := mismatch_attempt C K card device channel subdevice fmode ver w hsub
      (hm 0 (by omega))
    rw [again_again C K card device channel subdevice fmode ctl attempt ver w (by omega) ha]
    obtain ⟨e1, e2, e3, e4⟩ := ih (attempt + 1)
      (open_attempt C K card device channel subdevice fmode ver w).2.1
      (open_attempt C K card device channel subdevice fmode ver w).2.2 (by omega)
      (fun i hi => hm (i + 1) (by omega))
    refine ⟨e1, ?_, ?_, ?_⟩
    · exact e2.trans hf
    · exact e3.trans (by rw [ho]; omega)
    · exact e4.trans (by rw [hc]; omega)


/-- When the subdevice preference is accepted and the first attempt ends with a
`return`, that is the result of `snd_pcm_open_channel`. -/
theorem open_channel_first_attempt (C : Consts) (K : Kernel)
    (card device channel subdevice fmode ctl ver : Int) (w : World) (v : Int)
    (hch : channel = SND_PCM_CHANNEL_PLAYBACK ∨ channel = SND_PCM_CHANNEL_CAPTURE)
    (hpref : ¬ (issue K (.ctl_prefer_subdevice ctl device channel subdevice) w).1.ret < 0)
    (ha : (open_attempt C K card device channel subdevice fmode ver
      (issue K (.ctl_prefer_subdevice ctl device channel subdevice) w).2).1 = .ret v) :
    snd_pcm_open_channel C K card device channel subdevice fmode ctl ver w
      = (v,
          (open_attempt C K card device channel subdevice fmode ver
            (issue K (.ctl_prefer_subdevice ctl device channel subdevice) w).2).2.1,
          (open_attempt C K card device channel subdevice fmode ver
            (issue K (.ctl_prefer_subdevice ctl device channel subdevice) w).2).2.2) := by
  unfold snd_pcm_open_channel
  simp only [hch, hpref, if_true, if_false]
  exact again_ret C K card device channel subdevice fmode ctl 0 ver _ v (by omega) ha

/-- C4, as the code has it: for a non-null handle and a direction d in
{PLAYBACK, CAPTURE}, `snd_pcm_file_descriptor` returns the value stored in the
slot, whether it is an open descriptor or not; and on a handle produced by
`snd_pcm_open_subdevice` with CAPTURE not requested the value returned for
CAPTURE is the not-open sentinel -1, which differs from -EINVAL. -/
theorem file_descriptor_returns_slot (C : Consts) (K : Kernel) (p : snd_pcm_t) (d : Int)
    (hd : d = SND_PCM_CHANNEL_PLAYBACK ∨ d = SND_PCM_CHANNEL_CAPTURE) :
    snd_pcm_file_descriptor (some p) d = (p.chan d).fd ∧
    ∀ (card device subdevice mode : Int) (w : World) (pcm : snd_pcm_t),
      Int.land mode C.SND_PCM_OPEN_CAPTURE = 0 →
      (snd_pcm_open_subdevice C K card device subdevice mode w).2.1 = some pcm →
      snd_pcm_file_descriptor (some pcm) SND_PCM_CHANNEL_CAPTURE = -1 ∧ (-1 : Int) ≠ -EINVAL := by
  have hd1 : d = 0 ∨ d = 1 := by
    simpa [SND_PCM_CHANNEL_PLAYBACK, SND_PCM_CHANNEL_CAPTURE] using hd
  refine ⟨?_, ?_⟩
  · simp only [snd_pcm_file_descriptor, channel_in_range hd1, if_false]
  · intro card device subdevice mode w pcm hm hopen
    exact ⟨open_without_capture C K card device subdevice mode w pcm hm hopen, by decide⟩

/-- C5: when `snd_pcm_open_subdevice` is called with both PLAYBACK and CAPTURE
requested (valid card, control session opened), the playback channel opens and
the capture channel open fails for whatever reason, the call returns the
negative result of the capture open, `*handle` is NULL, and the table of open
descriptors is exactly what it was before the call: the playback descriptor
and the descriptor of every capture attempt have been closed.  The header
constant `SND_ERROR_INCOMPATIBLE_VERSION` is taken to be positive, so that its
negation is an error and not a descriptor. -/
theorem capture_failure_leaves_no_descriptor (C : Consts) (K : Kernel)
    (card device subdevice mode : Int) (w : World)
    (hver : 0 < C.SND_ERROR_INCOMPATIBLE_VERSION)
    (hcard : ¬ (card < 0 ∨ card ≥ C.SND_CARDS))
    (hctl : ¬ (issue K (.ctl_open card) w).1.ret < 0)
    (hP : Int.land mode C.SND_PCM_OPEN_PLAYBACK ≠ 0)
    (hCa : Int.land mode C.SND_PCM_OPEN_CAPTURE ≠ 0)
    (hp : 0 ≤ (playback_open C K card device subdevice mode w).1)
    (hc : (capture_open C K card device subdevice mode w).1 < 0) :
    (snd_pcm_open_subdevice C K card device subdevice mode w).1
      = (capture_open C K card device subdevice mode w).1 ∧
    (snd_pcm_open_subdevice C K card device subdevice mode w).1 < 0 ∧
    (snd_pcm_open_subdevice C K card device subdevice mode w).2.1 = none ∧
    (snd_pcm_open_subdevice C K card device subdevice mode w).2.2.fds = w.fds := by
  rw [open_subdevice_capture_fails C K card device subdevice mode w hcard hctl hP hCa hp hc]
  refine ⟨rfl, hc, rfl, ?_⟩
  have h1 := (open_channel_fds C K card device SND_PCM_CHANNEL_PLAYBACK subdevice
    (open_fmode C mode) (issue K (.ctl_open card) w).1.ptr 0 (issue K (.ctl_open card) w).2 hver).2 hp
  have h2 := (open_channel_fds C K card device SND_PCM_CHANNEL_CAPTURE subdevice
    (open_fmode C mode) (issue K (.ctl_open card) w).1.ptr
    (playback_open C K card device subdevice mode w).2.1
    (playback_open C K card device subdevice mode w).2.2 hver).1 hc
  simp only [issue_fds, sys_close_fds]
  unfold capture_open
  rw [h2]
  unfold playback_open
  rw [h1, issue_fds, List.erase_cons_head]

/-- C6: for a requested subdevice >= 0 (valid direction, subdevice preference
accepted), if each of the first four open attempts of `snd_pcm_open_channel`
opens the device, passes the protocol-version check and reports a granted
subdevice different from the requested one, then the function returns -EBUSY
after exactly 4 `open` calls and exactly 4 `close` calls, and the table of open
descriptors is what it was before the call; nothing is assumed about what the
environment would answer to a fifth attempt. -/
theorem busy_after_four_mismatches (C : Consts) (K : Kernel)
    (card device channel subdevice fmode ctl ver : Int) (w : World)
    (hsub : 0 ≤ subdevice)
    (hch : channel = SND_PCM_CHANNEL_PLAYBACK ∨ channel = SND_PCM_CHANNEL_CAPTURE)
    (hpref : ¬ (issue K (.ctl_prefer_subdevice ctl device channel subdevice) w).1.ret < 0)
    (hmis : ∀ i, i < 4 → attempt_mismatches C K card device channel subdevice fmode
      (after_attempts C K card device channel subdevice fmode i
        (ver, (issue K (.ctl_prefer_subdevice ctl device channel subdevice) w).2)).2) :
    (snd_pcm_open_channel C K card device channel subdevice fmode ctl ver w).1 = -EBUSY ∧
    count_open (snd_pcm_open_channel C K card device channel subdevice fmode ctl ver w).2.2.trace
      = count_open w.trace + 4 ∧
    count_close (snd_pcm_open_channel C K card device channel subdevice fmode ctl ver w).2.2.trace
      = count_close w.trace + 4 ∧
    (snd_pcm_open_channel C K card device channel subdevice fmode ctl ver w).2.2.fds = w.fds := by
  obtain ⟨e1, e2, e3, e4⟩ := again_mismatches C K card device channel subdevice fmode ctl hsub 4 0
    ver (issue K (.ctl_prefer_subdevice ctl device channel subdevice) w).2 rfl hmis
  unfold snd_pcm_open_channel
  simp only [hch, hpref, if_true, if_false, e1, issue_fds, issue_trace]
  refine ⟨trivial, ?_, ?_, ?_⟩
  · rw [issue_trace] at e3
    simp only [count_open, List.countP_append, List.countP_cons, List.countP_nil] at e3 ⊢
    simpa using e3
  · rw [issue_trace] at e4
    simp only [count_close, List.countP_append, List.countP_cons, List.countP_nil] at e4 ⊢
    simpa using e4
  · simpa [issue_fds] using e2

/-- C7: for a non-null handle and a direction d in {PLAYBACK, CAPTURE},
`snd_pcm_transfer_size` returns the cached fragment size when d's setup cache
is valid and its mode is block mode, and -EBADFD in every other case; it never
issues a call and never changes the session object (validity flag and cached
setup included): handle and world come back as they went in. -/
theorem transfer_size_reads_cache (C : Consts) (p : snd_pcm_t) (d : Int) (w : World)
    (hd : d = SND_PCM_CHANNEL_PLAYBACK ∨ d = SND_PCM_CHANNEL_CAPTURE) :
    snd_pcm_transfer_size C (some p) d w
      = (if (p.chan d).setup_is_valid = true ∧ (p.chan d).setup.mode = C.SND_PCM_MODE_BLOCK
          then (p.chan d).setup.frag_size else -EBADFD,
         some p, w) := by
  have hd1 : ¬ (d < 0 ∨ d > 1) := channel_in_range
    (by simpa [SND_PCM_CHANNEL_PLAYBACK, SND_PCM_CHANNEL_CAPTURE] using hd)
  simp only [snd_pcm_transfer_size, hd1, if_false]
  by_cases hv : (p.chan d).setup_is_valid = true
  · by_cases hm : (p.chan d).setup.mode = C.SND_PCM_MODE_BLOCK
    · simp [hv, hm]
    · simp [hv, hm]
  · simp [hv]

/-- C8: `snd_pcm_write` and `snd_pcm_read` with a null buffer and a length > 0
return -EINVAL on any handle (null or not) without issuing any call; with a
null buffer and length 0 on an open descriptor they issue the zero-length
transfer and return its result (the count, or the negated OS error), so the
buffer check rejects nothing. -/
theorem null_buffer_transfers (K : Kernel) (pcm : Option snd_pcm_t) (p : snd_pcm_t)
    (size : Nat) (w : World) :
    (0 < size →
      snd_pcm_write K pcm NULL size w = (-EINVAL, w) ∧
      snd_pcm_read K pcm NULL size w = (-EINVAL, w)) ∧
    (0 ≤ (p.chan SND_PCM_CHANNEL_PLAYBACK).fd →
      snd_pcm_write K (some p) NULL 0 w
        = (if (issue K (.sys_write (p.chan SND_PCM_CHANNEL_PLAYBACK).fd NULL 0) w).1.ret < 0
            then (issue K (.sys_write (p.chan SND_PCM_CHANNEL_PLAYBACK).fd NULL 0) w).1.errno.neg
            else (issue K (.sys_write (p.chan SND_PCM_CHANNEL_PLAYBACK).fd NULL 0) w).1.ret,
           (issue K (.sys_write (p.chan SND_PCM_CHANNEL_PLAYBACK).fd NULL 0) w).2)) ∧
    (0 ≤ (p.chan SND_PCM_CHANNEL_CAPTURE).fd →
      snd_pcm_read K (some p) NULL 0 w
        = (if (issue K (.sys_read (p.chan SND_PCM_CHANNEL_CAPTURE).fd NULL 0) w).1.ret < 0
            then (issue K (.sys_read (p.chan SND_PCM_CHANNEL_CAPTURE).fd NULL 0) w).1.errno.neg
            else (issue K (.sys_read (p.chan SND_PCM_CHANNEL_CAPTURE).fd NULL 0) w).1.ret,
           (issue K (.sys_read (p.chan SND_PCM_CHANNEL_CAPTURE).fd NULL 0) w).2)) := by
  refine ⟨fun hsize => ⟨?_, ?_⟩, fun hpfd => ?_, fun hcfd => ?_⟩
  · cases pcm with
    | none => rfl
    | some q => simp [snd_pcm_write, hsize]
  · cases pcm with
    | none => rfl
    | some q => simp [snd_pcm_read, hsize]
  · have hp : ¬ (p.chan SND_PCM_CHANNEL_PLAYBACK).fd < 0 := by omega
    simp only [snd_pcm_write, hp, if_false]
    split_ifs <;> simp_all
  · have hc : ¬ (p.chan SND_PCM_CHANNEL_CAPTURE).fd < 0 := by omega
    simp only [snd_pcm_read, hc, if_false]
    split_ifs <;> simp_all

/-! ## Mapping and unmapping -/

theorem sys_munmap_maps (K : Kernel) (addr length : Int) (w : World) :
    (sys_munmap K addr length w).2.maps = w.maps.erase (addr, length) := rfl

theorem sys_munmap_trace (K : Kernel) (addr length : Int) (w : World) :
    (sys_munmap K addr length w).2.trace = w.trace ++ [.sys_munmap addr length] := rfl

/-- A mapping that failed leaves the table of mapped regions as it was. -/
theorem sys_mmap_failed_maps (K : Kernel) (length prot flags fd offset : Int) (w : World)
    (h : (sys_mmap K length prot flags fd offset w).1.ptr = MAP_FAILED ∨
      (sys_mmap K length prot flags fd offset w).1.ptr = NULL) :
    (sys_mmap K length prot flags fd offset w).2.maps = w.maps := by
  unfold sys_mmap at h ⊢
  simp only at h ⊢
  split_ifs at h ⊢ with h1
  · rfl
  · exact absurd h h1

/-- A mapping that succeeded adds its region to the table of mapped regions. -/
theorem sys_mmap_ok_maps (K : Kernel) (length prot flags fd offset : Int) (w : World)
    (h : ¬ ((sys_mmap K length prot flags fd offset w).1.ptr = MAP_FAILED ∨
      (sys_mmap K length prot flags fd offset w).1.ptr = NULL)) :
    (sys_mmap K length prot flags fd offset w).2.maps
      = ((sys_mmap K length prot flags fd offset w).1.ptr, length) :: w.maps := by
  unfold sys_mmap at h ⊢
  simp only at h ⊢
  split_ifs at h ⊢ with h1
  · exact absurd h1 h
  · rfl

/-- What `snd_pcm_mmap` does on an open channel once the channel info query
has succeeded, in terms of its two mappings. -/
theorem mmap_after_info (C : Consts) (K : Kernel) (p : snd_pcm_t) (d : Int)
    (control buffer : Int) (w : World) (hd : d = 0 ∨ d = 1) (hfd : 0 ≤ (p.chan d).fd)
    (hinfo : ¬ (mmap_info_call K p d w).1.ret < 0) :
    snd_pcm_mmap C K (some p) d (some control) (some buffer) w =
      if (mmap_control_call C K p d w).1.ptr = MAP_FAILED ∨
          (mmap_control_call C K p d w).1.ptr = NULL then
        ((mmap_control_call C K p d w).1.errno.neg, some p, some NULL, some NULL,
          (mmap_control_call C K p d w).2)
      else if (mmap_data_call C K p d w).1.ptr = MAP_FAILED ∨
          (mmap_data_call C K p d w).1.ptr = NULL then
        ((mmap_data_call C K p d w).1.errno.neg, some p, some NULL, some NULL,
          (sys_munmap K (mmap_control_call C K p d w).1.ptr C.sizeof_mmap_control
            (mmap_data_call C K p d w).2).2)
      else
        (0, some (p.setChan d { p.chan d with
            mmap_control := (mmap_control_call C K p d w).1.ptr,
            mmap_data := (mmap_data_call C K p d w).1.ptr,
            mmap_size := (mmap_info_call K p d w).1.info.mmap_size }),
          some (mmap_control_call C K p d w).1.ptr, some (mmap_data_call C K p d w).1.ptr,
          (mmap_data_call C K p d w).2) := by
  have h1 : ¬ (d < 0 ∨ d > 1) := channel_in_range hd
  have h2 : ¬ (p.chan d).fd < 0 := by omega
  have h3 : ¬ (d < 0 ∨ d > 1 ∨ (some control = none) ∨ (some buffer = none)) := by
    simp only [reduceCtorEq, or_false]; exact h1
  unfold mmap_data_call mmap_control_call
  unfold mmap_info_call at hinfo ⊢
  simp only [snd_pcm_mmap, snd_pcm_channel_info, h1, h2, h3, hinfo, if_false, Option.map_some',
    Option.getD_some, lt_self_iff_false]

/-- Removing two regions that were added last, in the order in which
`snd_pcm_munmap` removes them, gives back the table before them. -/
theorem erase_two (a b : Int × Int) (l : List (Int × Int)) :
    ((b :: a :: l).erase a).erase b = l := by
  by_cases h : b = a
  · subst h
    simp
  · rw [List.erase_cons_tail (by simpa using h), List.erase_cons_head, List.erase_cons_head]

/-- When nothing is mapped, `snd_pcm_munmap` does nothing and returns 0. -/
theorem munmap_nothing_mapped (C : Consts) (K : Kernel) (q : snd_pcm_t) (d : Int) (w : World)
    (hd : d = 0 ∨ d = 1) (hc : (q.chan d).mmap_control = NULL) (hdata : (q.chan d).mmap_data = NULL) :
    snd_pcm_munmap C K (some q) d w = (0, some q, w) := by
  have h1 : ¬ (d < 0 ∨ d > 1) := channel_in_range hd
  simp only [snd_pcm_munmap, h1, hc, hdata, if_false, ne_eq, not_true_eq_false, setChan_chan]

/-- When both regions are mapped, `snd_pcm_munmap` unmaps the control region,
then the data region, clears the three fields and returns 0. -/
theorem munmap_both_mapped (C : Consts) (K : Kernel) (q : snd_pcm_t) (d : Int) (w : World)
    (hd : d = 0 ∨ d = 1) (hc : (q.chan d).mmap_control ≠ NULL) (hdata : (q.chan d).mmap_data ≠ NULL) :
    snd_pcm_munmap C K (some q) d w =
      (0, some (q.setChan d { q.chan d with mmap_control := NULL, mmap_data := NULL, mmap_size := 0 }),
        (sys_munmap K (q.chan d).mmap_data (q.chan d).mmap_size
          (sys_munmap K (q.chan d).mmap_control C.sizeof_mmap_control w).2).2) := by
  have h1 : ¬ (d < 0 ∨ d > 1) := channel_in_range hd
  simp only [snd_pcm_munmap, h1, hc, hdata, if_false, if_true, ne_eq, not_false_eq_true]

/-- C9: on a channel with an open descriptor, if in `snd_pcm_mmap` the channel
info query and the control-region mapping succeed and the data-region mapping
fails, the call returns the negated OS error of the data mapping (a negative
value), its last call is the unmapping of the control region it had just
established, the session object is unchanged (so the stored control handle,
data handle and data length are what they were), both output pointers are
NULL, and the table of mapped regions is what it was before the call. -/
theorem mmap_data_failure_unmaps_control (C : Consts) (K : Kernel) (p : snd_pcm_t) (d : Int)
    (control buffer : Int) (w : World)
    (hd : d = SND_PCM_CHANNEL_PLAYBACK ∨ d = SND_PCM_CHANNEL_CAPTURE)
    (hfd : 0 ≤ (p.chan d).fd)
    (hinfo : ¬ (mmap_info_call K p d w).1.ret < 0)
    (hctl : ¬ ((mmap_control_call C K p d w).1.ptr = MAP_FAILED ∨
      (mmap_control_call C K p d w).1.ptr = NULL))
    (hdata : (mmap_data_call C K p d w).1.ptr = MAP_FAILED ∨
      (mmap_data_call C K p d w).1.ptr = NULL) :
    (snd_pcm_mmap C K (some p) d (some control) (some buffer) w).1
      = (mmap_data_call C K p d w).1.errno.neg ∧
    (snd_pcm_mmap C K (some p) d (some control) (some buffer) w).1 < 0 ∧
    (snd_pcm_mmap C K (some p) d (some control) (some buffer) w).2.1 = some p ∧
    (snd_pcm_mmap C K (some p) d (some control) (some buffer) w).2.2.1 = some NULL ∧
    (snd_pcm_mmap C K (some p) d (some control) (some buffer) w).2.2.2.1 = some NULL ∧
    (snd_pcm_mmap C K (some p) d (some control) (some buffer) w).2.2.2.2.trace
      = (mmap_data_call C K p d w).2.trace ++
          [.sys_munmap (mmap_control_call C K p d w).1.ptr C.sizeof_mmap_control] ∧
    (snd_pcm_mmap C K (some p) d (some control) (some buffer) w).2.2.2.2.maps = w.maps := by
  have hd1 : d = 0 ∨ d = 1 := by
    simpa [SND_PCM_CHANNEL_PLAYBACK, SND_PCM_CHANNEL_CAPTURE] using hd
  rw [mmap_after_info C K p d control buffer w hd1 hfd hinfo, if_neg hctl, if_pos hdata]
  refine ⟨rfl, Errno.neg_lt_zero _, rfl, rfl, rfl, rfl, ?_⟩
  show (sys_munmap K _ _ _).2.maps = w.maps
  rw [sys_munmap_maps]
  have e1 : (mmap_data_call C K p d w).2.maps = (mmap_control_call C K p d w).2.maps :=
    sys_mmap_failed_maps K _ _ _ _ _ _ hdata
  have e2 : (mmap_control_call C K p d w).2.maps
      = ((mmap_control_call C K p d w).1.ptr, C.sizeof_mmap_control) :: w.maps :=
    sys_mmap_ok_maps K _ _ _ _ _ _ hctl
  rw [e1, e2, List.erase_cons_head]

/-- A `snd_pcm_mmap` that returns 0 found the descriptor open and the channel
info query successful. -/
theorem mmap_success_needs (C : Consts) (K : Kernel) (p : snd_pcm_t) (d : Int)
    (control buffer : Int) (w : World) (hd : d = 0 ∨ d = 1)
    (hok : (snd_pcm_mmap C K (some p) d (some control) (some buffer) w).1 = 0) :
    0 ≤ (p.chan d).fd ∧ ¬ (mmap_info_call K p d w).1.ret < 0 := by
  have h1 : ¬ (d < 0 ∨ d > 1) := channel_in_range hd
  have h3 : ¬ (d < 0 ∨ d > 1 ∨ (some control = none) ∨ (some buffer = none)) := by
    simp only [reduceCtorEq, or_false]; exact h1
  have hE : (-EINVAL : Int) ≠ 0 := by decide
  by_cases hfd : (p.chan d).fd < 0
  · simp only [snd_pcm_mmap, h3, hfd, if_true, if_false] at hok
    exact absurd hok hE
  · refine ⟨by omega, fun hinfo => ?_⟩
    unfold mmap_info_call at hinfo
    simp only [snd_pcm_mmap, snd_pcm_channel_info, h1, h3, hfd, hinfo, if_true, if_false,
      Errno.neg_lt_zero] at hok
    exact absurd hok (Errno.neg_ne_zero _)

/-- C10: after a `snd_pcm_mmap` that returned 0 for a direction d in
{PLAYBACK, CAPTURE}, the first `snd_pcm_munmap` returns 0, issues exactly the
two unmappings (control region, then data region), leaves the table of mapped
regions as it was before the mapping and clears both stored handles and the
stored size; a second `snd_pcm_munmap` returns 0, issues no call and changes
neither the session object nor the world.  The same holds on any session on
which nothing is mapped for d: the call returns 0 and changes nothing. -/
theorem munmap_twice_is_safe (C : Consts) (K : Kernel) (p : snd_pcm_t) (d : Int)
    (control buffer : Int) (w : World)
    (hd : d = SND_PCM_CHANNEL_PLAYBACK ∨ d = SND_PCM_CHANNEL_CAPTURE)
    (hok : (snd_pcm_mmap C K (some p) d (some control) (some buffer) w).1 = 0) :
    (mmap_then_munmap C K p d control buffer w).1 = 0 ∧
    (∃ c b,
      (snd_pcm_mmap C K (some p) d (some control) (some buffer) w).2.2.1 = some c ∧
      (snd_pcm_mmap C K (some p) d (some control) (some buffer) w).2.2.2.1 = some b ∧
      ∃ size, (mmap_then_munmap C K p d control buffer w).2.2.trace
        = (snd_pcm_mmap C K (some p) d (some control) (some buffer) w).2.2.2.2.trace ++
            [.sys_munmap c C.sizeof_mmap_control, .sys_munmap b size]) ∧
    (mmap_then_munmap C K p d control buffer w).2.2.maps = w.maps ∧
    (∃ p2, (mmap_then_munmap C K p d control buffer w).2.1 = some p2 ∧
      (p2.chan d).mmap_control = NULL ∧ (p2.chan d).mmap_data = NULL ∧
      (p2.chan d).mmap_size = 0) ∧
    snd_pcm_munmap C K (mmap_then_munmap C K p d control buffer w).2.1 d
        (mmap_then_munmap C K p d control buffer w).2.2
      = (0, (mmap_then_munmap C K p d control buffer w).2.1,
          (mmap_then_munmap C K p d control buffer w).2.2) ∧
    ∀ (q : snd_pcm_t) (w1 : World), (q.chan d).mmap_control = NULL → (q.chan d).mmap_data = NULL →
      snd_pcm_munmap C K (some q) d w1 = (0, some q, w1) := by
  have hd1 : d = 0 ∨ d = 1 := by
    simpa [SND_PCM_CHANNEL_PLAYBACK, SND_PCM_CHANNEL_CAPTURE] using hd
  obtain ⟨hfd, hinfo⟩ := mmap_success_needs C K p d control buffer w hd1 hok
  have hM := mmap_after_info C K p d control buffer w hd1 hfd hinfo
  by_cases hctl : (mmap_control_call C K p d w).1.ptr = MAP_FAILED ∨
      (mmap_control_call C K p d w).1.ptr = NULL
  · rw [hM, if_pos hctl] at hok
    exact absurd hok (Errno.neg_ne_zero _)
  by_cases hdata : (mmap_data_call C K p d w).1.ptr = MAP_FAILED ∨
      (mmap_data_call C K p d w).1.ptr = NULL
  · rw [hM, if_neg hctl, if_pos hdata] at hok
    exact absurd hok (Errno.neg_ne_zero _)
  rw [if_neg hctl, if_neg hdata] at hM
  have hc0 : (mmap_control_call C K p d w).1.ptr ≠ NULL := fun h => hctl (Or.inr h)
  have hd0 : (mmap_data_call C K p d w).1.ptr ≠ NULL := fun h => hdata (Or.inr h)
  have hU := munmap_both_mapped C K
    (p.setChan d { p.chan d with
      mmap_control := (mmap_control_call C K p d w).1.ptr,
      mmap_data := (mmap_data_call C K p d w).1.ptr,
      mmap_size := (mmap_info_call K p d w).1.info.mmap_size })
    d (mmap_data_call C K p d w).2 hd1 (by rw [chan_setChan]; exact hc0)
    (by rw [chan_setChan]; exact hd0)
  simp only [chan_setChan, setChan_setChan] at hU
  unfold mmap_then_munmap
  rw [hM]
  simp only
  rw [hU]
  refine ⟨rfl, ⟨(mmap_control_call C K p d w).1.ptr, (mmap_data_call C K p d w).1.ptr, rfl, rfl,
    (mmap_info_call K p d w).1.info.mmap_size, ?_⟩, ?_, ⟨_, rfl, ?_, ?_, ?_⟩, ?_, ?_⟩
  · simp only [sys_munmap_trace, List.append_assoc, List.singleton_append]
  · simp only [sys_munmap_maps]
    have e2 : (mmap_control_call C K p d w).2.maps
        = ((mmap_control_call C K p d w).1.ptr, C.sizeof_mmap_control) :: w.maps :=
      sys_mmap_ok_maps K _ _ _ _ _ _ hctl
    have e1 : (mmap_data_call C K p d w).2.maps
        = ((mmap_data_call C K p d w).1.ptr, (mmap_info_call K p d w).1.info.mmap_size)
            :: (mmap_control_call C K p d w).2.maps :=
      sys_mmap_ok_maps K _ _ _ _ _ _ hdata
    rw [e1, e2, erase_two]
  · rw [chan_setChan]
  · rw [chan_setChan]
  · rw [chan_setChan]
  · exact munmap_nothing_mapped C K _ d _ hd1 (by rw [chan_setChan]) (by rw [chan_setChan])
  · intro q w1 h1 h2
    exact munmap_nothing_mapped C K q d w1 hd1 h1 h2

/-! ## Closing -/

theorem chan_setChan_other (p : snd_pcm_t) (c : snd_pcm_chan) :
    (p.setChan 0 c).chan 1 = p.chan 1 ∧ (p.setChan 1 c).chan 0 = p.chan 0 := by
  constructor <;> rfl

/-- The function `snd_pcm_munmap` on a valid direction returns 0, changes only
the slot of that direction, keeps its descriptor, and issues exactly the calls
`munmap_calls`. -/
theorem munmap_shape (C : Consts) (K : Kernel) (p : snd_pcm_t) (d : Int) (w : World)
    (hd : d = 0 ∨ d = 1) :
    ∃ c1, (snd_pcm_munmap C K (some p) d w).2.1 = some (p.setChan d c1) ∧
      c1.fd = (p.chan d).fd ∧
      (snd_pcm_munmap C K (some p) d w).2.2.trace = w.trace ++ munmap_calls C p d := by
  have h1 : ¬ (d < 0 ∨ d > 1) := channel_in_range hd
  simp only [snd_pcm_munmap, h1, if_false, munmap_calls]
  by_cases hc : (p.chan d).mmap_control = NULL <;> by_cases hdat : (p.chan d).mmap_data = NULL <;>
    simp only [hc, hdat, sys_munmap_trace, ne_eq, not_true_eq_false, not_false_eq_true, if_true,
      if_false, List.append_nil, List.nil_append, List.append_assoc, List.singleton_append,
      and_true, Option.some.injEq] <;>
    exact ⟨_, rfl, rfl⟩


/-- One pass of the loop of `snd_pcm_close`: it changes only the slot of its
direction and keeps the descriptor there, issues the teardown calls and then
the `close` if the descriptor is open, and replaces `res` exactly when that
`close` fails. -/
theorem close_channel_shape (C : Consts) (K : Kernel) (p : snd_pcm_t) (d : Int) (res : Int)
    (w : World) (hd : d = 0 ∨ d = 1) :
    (∃ c1, (close_channel C K p d res w).2.1 = p.setChan d c1 ∧ c1.fd = (p.chan d).fd) ∧
    (close_channel C K p d res w).2.2.trace
      = w.trace ++ teardown_calls C p d ++
          (if (p.chan d).fd ≥ 0 then [Call.sys_close (p.chan d).fd] else []) ∧
    (close_channel C K p d res w).1
      = (if (p.chan d).fd ≥ 0 ∧
            (K (w.trace ++ teardown_calls C p d ++ [Call.sys_close (p.chan d).fd])).ret ≠ 0
          then (K (w.trace ++ teardown_calls C p d ++ [Call.sys_close (p.chan d).fd])).errno.neg
          else res) := by
  obtain ⟨c1, h1, h2, h3⟩ := munmap_shape C K p d
    (issue K (.plugin_clear d) (issue K (.plugin_munmap d) w).2).2 hd
  simp only [issue_trace] at h3
  have ht : w.trace ++ [Call.plugin_munmap d] ++ [Call.plugin_clear d] ++ munmap_calls C p d
      = w.trace ++ teardown_calls C p d := by
    simp [teardown_calls]
  rw [ht] at h3
  unfold close_channel
  simp only [h1, Option.getD_some, chan_setChan, h2]
  by_cases hfd : (p.chan d).fd ≥ 0
  · simp only [hfd, if_true, true_and]
    have hr : (sys_close K (p.chan d).fd (snd_pcm_munmap C K (some p) d
        (issue K (.plugin_clear d) (issue K (.plugin_munmap d) w).2).2).2.2).1
        = K (w.trace ++ teardown_calls C p d ++ [Call.sys_close (p.chan d).fd]) := by
      show K (_ ++ _) = _
      rw [h3]
    have hw : (sys_close K (p.chan d).fd (snd_pcm_munmap C K (some p) d
        (issue K (.plugin_clear d) (issue K (.plugin_munmap d) w).2).2).2.2).2.trace
        = w.trace ++ teardown_calls C p d ++ [Call.sys_close (p.chan d).fd] := by
      show _ ++ _ = _
      rw [h3]
    rw [hr]
    split_ifs
    · exact ⟨⟨c1, rfl, h2⟩, hw, rfl⟩
    · exact ⟨⟨c1, rfl, h2⟩, hw, rfl⟩
  · simp only [hfd, if_false, false_and, List.append_nil, and_true]
    exact ⟨⟨c1, rfl, h2⟩, h3⟩

/-- C11, as the code has it: for a non-null handle, `snd_pcm_close` runs the
teardown of the CAPTURE direction (plugin release, unmapping, then `close` of
its descriptor if open) after that of PLAYBACK whatever the PLAYBACK `close`
returned, frees the session object, and returns the error of the last
descriptor `close` that failed: the CAPTURE error when the CAPTURE `close`
fails, otherwise the PLAYBACK error when the PLAYBACK `close` fails, otherwise
0. -/
theorem close_returns_last_failure (C : Consts) (K : Kernel) (p : snd_pcm_t) (w : World) :
    (snd_pcm_close C K (some p) w).2.trace
      = w.trace ++ teardown_calls C p 0 ++
          (if p.playback.fd ≥ 0 then [Call.sys_close p.playback.fd] else []) ++
          teardown_calls C p 1 ++
          (if p.capture.fd ≥ 0 then [Call.sys_close p.capture.fd] else []) ++ [Call.free] ∧
    (snd_pcm_close C K (some p) w).1
      = (if p.capture.fd ≥ 0 ∧ (K (capture_close_history C p w)).ret ≠ 0
          then (K (capture_close_history C p w)).errno.neg
          else if p.playback.fd ≥ 0 ∧ (K (playback_close_history C p w)).ret ≠ 0
          then (K (playback_close_history C p w)).errno.neg
          else 0) := by
  obtain ⟨⟨c0, a1, a2⟩, a3, a4⟩ := close_channel_shape C K p 0 0 w (Or.inl rfl)
  obtain ⟨⟨c1, b1, b2⟩, b3, b4⟩ := close_channel_shape C K (close_channel C K p 0 0 w).2.1 1
    (close_channel C K p 0 0 w).1 (close_channel C K p 0 0 w).2.2 (Or.inr rfl)
  have hcap : (close_channel C K p 0 0 w).2.1.chan 1 = p.chan 1 := by
    rw [a1]; exact (chan_setChan_other p c0).1
  have htd : teardown_calls C (close_channel C K p 0 0 w).2.1 1 = teardown_calls C p 1 := by
    simp only [teardown_calls, munmap_calls, hcap]
  have hp0 : p.chan 0 = p.playback := rfl
  have hp1 : p.chan 1 = p.capture := rfl
  rw [htd, hcap, a3, hp0, hp1] at b3 b4
  rw [hp0] at a4
  unfold snd_pcm_close
  simp only [issue_trace]
  refine ⟨by rw [b3], ?_⟩
  rw [b4, a4]
  unfold capture_close_history playback_close_history
  rfl

/-! ## Blocking mode -/

/-- One pass of `snd_pcm_nonblock_mode` in terms of its flag read and its flag
write. -/
theorem nonblock_channel_eq (C : Consts) (K : Kernel) (q : snd_pcm_t) (d : Int)
    (nonblock : Int) (w : World) :
    nonblock_channel C K q d nonblock w =
      if (q.chan d).fd < 0 then (none, q, w)
      else if (getfl_call K (q.chan d).fd w).1.ret < 0 then
        (some (getfl_call K (q.chan d).fd w).1.errno.neg, q, (getfl_call K (q.chan d).fd w).2)
      else if (setfl_call K (q.chan d).fd nonblock w).1.ret < 0 then
        (some (setfl_call K (q.chan d).fd nonblock w).1.errno.neg, q,
          (setfl_call K (q.chan d).fd nonblock w).2)
      else
        (none, { q with mode := nonblock_mode_flags C nonblock q.mode },
          (setfl_call K (q.chan d).fd nonblock w).2) := rfl

/-- A pass of `snd_pcm_nonblock_mode` ends the call with `e` exactly when the
descriptor is open and the flag read fails, or the flag write fails, with `e`
the negated OS error of that call. -/
theorem nonblock_channel_fails (C : Consts) (K : Kernel) (q : snd_pcm_t) (d : Int)
    (nonblock : Int) (w : World) (e : Int) :
    (nonblock_channel C K q d nonblock w).1 = some e ↔
      (0 ≤ (q.chan d).fd ∧
        (((getfl_call K (q.chan d).fd w).1.ret < 0 ∧
            e = (getfl_call K (q.chan d).fd w).1.errno.neg) ∨
         (¬ (getfl_call K (q.chan d).fd w).1.ret < 0 ∧
            (setfl_call K (q.chan d).fd nonblock w).1.ret < 0 ∧
            e = (setfl_call K (q.chan d).fd nonblock w).1.errno.neg))) := by
  rw [nonblock_channel_eq]
  split_ifs with h1 h2 h3
  · simp only [reduceCtorEq, false_iff, not_and]
    intro h; omega
  · simp only [Option.some.injEq, h2, true_and, not_true_eq_false, false_and, or_false]
    constructor
    · intro h; exact ⟨by omega, h.symm⟩
    · intro h; exact h.2.symm
  · simp only [Option.some.injEq, h2, false_and, not_false_eq_true, true_and, false_or, h3]
    constructor
    · intro h; exact ⟨by omega, h.symm⟩
    · intro h; exact h.2.symm
  · simp only [reduceCtorEq, h2, h3, false_and, and_false, or_self]

/-- A pass that ends the call leaves the session object as it was, and the
value it returns is negative. -/
theorem nonblock_channel_fail_keeps (C : Consts) (K : Kernel) (q : snd_pcm_t) (d : Int)
    (nonblock : Int) (w : World) (e : Int)
    (h : (nonblock_channel C K q d nonblock w).1 = some e) :
    (nonblock_channel C K q d nonblock w).2.1 = q ∧ e < 0 := by
  rw [nonblock_channel_eq] at h ⊢
  split_ifs at h ⊢
  all_goals
    simp only [Option.some.injEq] at h
    exact ⟨rfl, h ▸ Errno.neg_lt_zero _⟩

/-- A pass that does not end the call has updated the mode flags if the
descriptor is open and has changed nothing if it is not. -/
theorem nonblock_channel_goes_on (C : Consts) (K : Kernel) (q : snd_pcm_t) (d : Int)
    (nonblock : Int) (w : World)
    (h : (nonblock_channel C K q d nonblock w).1 = none) :
    (nonblock_channel C K q d nonblock w).2.1
      = (if 0 ≤ (q.chan d).fd then { q with mode := nonblock_mode_flags C nonblock q.mode }
          else q) := by
  rw [nonblock_channel_eq] at h ⊢
  split_ifs at h ⊢
  all_goals first
    | rfl
    | omega

/-- C12, as the code has it: `snd_pcm_nonblock_mode` on a non-null handle
returns the negated OS error of the flag read or flag write that failed.  When
the failure is on the PLAYBACK descriptor, or on the CAPTURE descriptor with
PLAYBACK not open, the session object (its mode flags included) is exactly what
it was before the call.  When both directions are open and the failure is on
the CAPTURE descriptor after the PLAYBACK pass went through, the mode flags
have already been set to the requested mode by the PLAYBACK pass. -/
theorem nonblock_failure_mode (C : Consts) (K : Kernel) (p : snd_pcm_t) (nonblock : Int)
    (w : World) (e : Int) :
    ((nonblock_channel C K p 0 nonblock w).1 = some e →
      (snd_pcm_nonblock_mode C K (some p) nonblock w).1 = e ∧ e < 0 ∧
      (snd_pcm_nonblock_mode C K (some p) nonblock w).2.1 = some p) ∧
    ((nonblock_channel C K p 0 nonblock w).1 = none →
      (nonblock_channel C K (nonblock_channel C K p 0 nonblock w).2.1 1 nonblock
        (nonblock_channel C K p 0 nonblock w).2.2).1 = some e →
      (snd_pcm_nonblock_mode C K (some p) nonblock w).1 = e ∧ e < 0 ∧
      (snd_pcm_nonblock_mode C K (some p) nonblock w).2.1
        = some (if 0 ≤ p.playback.fd then { p with mode := nonblock_mode_flags C nonblock p.mode }
            else p)) ∧
    (∀ (q : snd_pcm_t) (d : Int) (w1 : World),
      (nonblock_channel C K q d nonblock w1).1 = some e ↔
        (0 ≤ (q.chan d).fd ∧
          (((getfl_call K (q.chan d).fd w1).1.ret < 0 ∧
              e = (getfl_call K (q.chan d).fd w1).1.errno.neg) ∨
           (¬ (getfl_call K (q.chan d).fd w1).1.ret < 0 ∧
              (setfl_call K (q.chan d).fd nonblock w1).1.ret < 0 ∧
              e = (setfl_call K (q.chan d).fd nonblock w1).1.errno.neg)))) := by
  refine ⟨fun h => ?_, fun h0 h1 => ?_, fun q d w1 => nonblock_channel_fails C K q d nonblock w1 e⟩
  · obtain ⟨hk, hneg⟩ := nonblock_channel_fail_keeps C K p 0 nonblock w e h
    simp only [snd_pcm_nonblock_mode, h, hk]
    exact ⟨trivial, hneg, trivial⟩
  · obtain ⟨hk, hneg⟩ := nonblock_channel_fail_keeps C K _ 1 nonblock _ e h1
    have hgo := nonblock_channel_goes_on C K p 0 nonblock w h0
    simp only [snd_pcm_nonblock_mode, h0, h1, hk]
    exact ⟨trivial, hneg, by rw [hgo]; rfl⟩

/-! ## What a successful open returns -/

/-- When `open_subdevice_finish` returns 0, one of the two descriptors is
non-negative, the handle holds both, and the descriptor table is untouched. -/
theorem finish_success (K : Kernel) (card device mode ctl pfd cfd ver : Int) (w : World)
    (h0 : (open_subdevice_finish K card device mode ctl pfd cfd ver w).1 = 0) :
    ¬ (pfd < 0 ∧ cfd < 0) ∧
    (open_subdevice_finish K card device mode ctl pfd cfd ver w).2.1
      = some { card := card, device := device, playback := chan_init pfd,
               capture := chan_init cfd, mode := mode, ver := ver } ∧
    (open_subdevice_finish K card device mode ctl pfd cfd ver w).2.2.fds = w.fds := by
  have hE : (-EINVAL : Int) ≠ 0 := by decide
  have hM : (-ENOMEM : Int) ≠ 0 := by decide
  unfold open_subdevice_finish at h0 ⊢
  simp only at h0 ⊢
  split_ifs at h0 ⊢ with h1
  all_goals first
    | exact absurd h0 hE
    | exact absurd h0 hM
    | exact ⟨h1, rfl, rfl⟩

/-- When `open_subdevice_capture` returns 0, the capture slot of the handle
holds -1 if CAPTURE was not requested and the non-negative result of the
capture open if it was; the playback slot holds `pfd`. -/
theorem capture_stage_success (C : Consts) (K : Kernel)
    (card device subdevice mode fmode ctl pfd ver : Int) (w : World)
    (h0 : (open_subdevice_capture C K card device subdevice mode fmode ctl pfd ver w).1 = 0) :
    ∃ pcm, (open_subdevice_capture C K card device subdevice mode fmode ctl pfd ver w).2.1
        = some pcm ∧
      pcm.playback.fd = pfd ∧
      (Int.land mode C.SND_PCM_OPEN_CAPTURE = 0 → pcm.capture.fd = -1 ∧
        (open_subdevice_capture C K card device subdevice mode fmode ctl pfd ver w).2.2.fds
          = w.fds) ∧
      (Int.land mode C.SND_PCM_OPEN_CAPTURE ≠ 0 → 0 ≤ pcm.capture.fd ∧
        (0 < C.SND_ERROR_INCOMPATIBLE_VERSION →
          (open_subdevice_capture C K card device subdevice mode fmode ctl pfd ver w).2.2.fds
            = pcm.capture.fd :: w.fds)) ∧
      ¬ (pfd < 0 ∧ pcm.capture.fd < 0) := by
  unfold open_subdevice_capture at h0 ⊢
  simp only at h0 ⊢
  by_cases hm : Int.land mode C.SND_PCM_OPEN_CAPTURE = 0
  · simp only [hm, ne_eq, not_true_eq_false, if_false, false_and] at h0 ⊢
    obtain ⟨f1, f2, f3⟩ := finish_success K _ _ _ _ _ _ _ _ h0
    exact ⟨_, f2, rfl, fun _ => ⟨rfl, f3⟩, fun h => h.elim, f1⟩
  · simp only [hm, ne_eq, not_false_eq_true, if_true, true_and] at h0 ⊢
    by_cases hc : (snd_pcm_open_channel C K card device SND_PCM_CHANNEL_CAPTURE subdevice fmode ctl
        ver w).1 < 0
    · simp only [hc, if_true] at h0
      omega
    · simp only [hc, if_false] at h0 ⊢
      obtain ⟨f1, f2, f3⟩ := finish_success K _ _ _ _ _ _ _ _ h0
      refine ⟨_, f2, rfl, fun h => h.elim, fun _ => ⟨by simpa [chan_init] using hc, ?_⟩, f1⟩
      intro hver
      rw [f3]
      exact (open_channel_fds C K card device SND_PCM_CHANNEL_CAPTURE subdevice fmode ctl ver w
        hver).2 (by omega)

/-- The function `snd_pcm_open_subdevice` in terms of its stages. -/
theorem open_subdevice_stages (C : Consts) (K : Kernel) (card device subdevice mode : Int)
    (w : World) :
    snd_pcm_open_subdevice C K card device subdevice mode w =
      if card < 0 ∨ card ≥ C.SND_CARDS then (-EINVAL, none, w)
      else if (issue K (.ctl_open card) w).1.ret < 0 then
        ((issue K (.ctl_open card) w).1.ret, none, (issue K (.ctl_open card) w).2)
      else if Int.land mode C.SND_PCM_OPEN_PLAYBACK ≠ 0 ∧
          (playback_stage C K card device subdevice mode w).1 < 0 then
        ((playback_stage C K card device subdevice mode w).1, none,
          (issue K (.ctl_close (issue K (.ctl_open card) w).1.ptr)
            (playback_stage C K card device subdevice mode w).2.2).2)
      else
        open_subdevice_capture C K card device subdevice mode (open_fmode C mode)
          (issue K (.ctl_open card) w).1.ptr
          (playback_stage C K card device subdevice mode w).1
          (playback_stage C K card device subdevice mode w).2.1
          (playback_stage C K card device subdevice mode w).2.2 := rfl

/-- After the playback block, `pfd` is -1 and the descriptor table untouched if
PLAYBACK was not requested; if it was and `pfd` is non-negative, `pfd` is the
one descriptor added to the table. -/
theorem playback_stage_facts (C : Consts) (K : Kernel) (card device subdevice mode : Int)
    (w : World) :
    (Int.land mode C.SND_PCM_OPEN_PLAYBACK = 0 →
      (playback_stage C K card device subdevice mode w).1 = -1 ∧
      (playback_stage C K card device subdevice mode w).2.2.fds = w.fds) ∧
    (Int.land mode C.SND_PCM_OPEN_PLAYBACK ≠ 0 → 0 < C.SND_ERROR_INCOMPATIBLE_VERSION →
      0 ≤ (playback_stage C K card device subdevice mode w).1 →
      (playback_stage C K card device subdevice mode w).2.2.fds
        = (playback_stage C K card device subdevice mode w).1 :: w.fds) := by
  constructor
  · intro h
    simp only [playback_stage, h, ne_eq, not_true_eq_false, if_false, issue_fds, and_self]
  · intro h hver hp
    simp only [playback_stage, h, ne_eq, not_false_eq_true, if_true] at hp ⊢
    exact (open_channel_fds C K card device SND_PCM_CHANNEL_PLAYBACK subdevice
      (open_fmode C mode) (issue K (.ctl_open card) w).1.ptr 0
      (issue K (.ctl_open card) w).2 hver).2 hp

/-- C13: whenever `snd_pcm_open_subdevice` returns 0, the handle is not NULL,
its PLAYBACK slot holds a non-negative descriptor if and only if the mode
requested PLAYBACK and its CAPTURE slot if and only if the mode requested
CAPTURE, an unrequested slot holds -1, at least one slot is open, and (for a
positive `SND_ERROR_INCOMPATIBLE_VERSION`) the descriptors of the requested
slots are exactly what the call added to the table of open descriptors.  A
mode requesting neither direction never succeeds: the result is negative and
the handle is NULL, and when the card is valid and the control session opens
the result is -EINVAL with the table of open descriptors unchanged. -/
theorem open_success_slots (C : Consts) (K : Kernel) (card device subdevice mode : Int)
    (w : World) :
    ((snd_pcm_open_subdevice C K card device subdevice mode w).1 = 0 →
      ∃ pcm, (snd_pcm_open_subdevice C K card device subdevice mode w).2.1 = some pcm ∧
        (0 ≤ pcm.playback.fd ↔ Int.land mode C.SND_PCM_OPEN_PLAYBACK ≠ 0) ∧
        (0 ≤ pcm.capture.fd ↔ Int.land mode C.SND_PCM_OPEN_CAPTURE ≠ 0) ∧
        (Int.land mode C.SND_PCM_OPEN_PLAYBACK = 0 → pcm.playback.fd = -1) ∧
        (Int.land mode C.SND_PCM_OPEN_CAPTURE = 0 → pcm.capture.fd = -1) ∧
        (0 ≤ pcm.playback.fd ∨ 0 ≤ pcm.capture.fd) ∧
        (0 < C.SND_ERROR_INCOMPATIBLE_VERSION →
          (snd_pcm_open_subdevice C K card device subdevice mode w).2.2.fds
            = (if Int.land mode C.SND_PCM_OPEN_CAPTURE ≠ 0 then [pcm.capture.fd] else []) ++
              (if Int.land mode C.SND_PCM_OPEN_PLAYBACK ≠ 0 then [pcm.playback.fd] else []) ++
              w.fds)) ∧
    (Int.land mode C.SND_PCM_OPEN_PLAYBACK = 0 → Int.land mode C.SND_PCM_OPEN_CAPTURE = 0 →
      (snd_pcm_open_subdevice C K card device subdevice mode w).1 < 0 ∧
      (snd_pcm_open_subdevice C K card device subdevice mode w).2.1 = none ∧
      (¬ (card < 0 ∨ card ≥ C.SND_CARDS) → ¬ (issue K (.ctl_open card) w).1.ret < 0 →
        (snd_pcm_open_subdevice C K card device subdevice mode w).1 = -EINVAL ∧
        (snd_pcm_open_subdevice C K card device subdevice mode w).2.2.fds = w.fds)) := by
  have hE : (-EINVAL : Int) ≠ 0 := by decide
  have hEn : (-EINVAL : Int) < 0 := by decide
  obtain ⟨pf0, pf1⟩ := playback_stage_facts C K card device subdevice mode w
  have key := open_subdevice_stages C K card device subdevice mode w
  constructor
  · intro h0
    by_cases hcard : card < 0 ∨ card ≥ C.SND_CARDS
    · rw [if_pos hcard] at key
      rw [key] at h0
      exact absurd h0 hE
    rw [if_neg hcard] at key
    by_cases hctl : (issue K (.ctl_open card) w).1.ret < 0
    · rw [if_pos hctl] at key
      rw [key] at h0
      exact absurd (show (issue K (.ctl_open card) w).1.ret = 0 from h0) (by omega)
    rw [if_neg hctl] at key
    by_cases hp : Int.land mode C.SND_PCM_OPEN_PLAYBACK ≠ 0 ∧
        (playback_stage C K card device subdevice mode w).1 < 0
    · rw [if_pos hp] at key
      rw [key] at h0
      exact absurd (show (playback_stage C K card device subdevice mode w).1 = 0 from h0)
        (by omega)
    rw [if_neg hp] at key
    rw [key] at h0 ⊢
    · obtain ⟨pcm, g1, g2, g3, g4, g5⟩ := capture_stage_success C K _ _ _ _ _ _ _ _ _ h0
      have hplay : 0 ≤ pcm.playback.fd ↔ Int.land mode C.SND_PCM_OPEN_PLAYBACK ≠ 0 := by
        rw [g2]
        constructor
        · intro h hz
          have := (pf0 hz).1
          omega
        · intro h
          by_contra hneg
          exact hp ⟨h, by omega⟩
      have hcap : 0 ≤ pcm.capture.fd ↔ Int.land mode C.SND_PCM_OPEN_CAPTURE ≠ 0 := by
        constructor
        · intro h hz
          have := (g3 hz).1
          omega
        · intro h
          exact (g4 h).1
      refine ⟨pcm, g1, hplay, hcap, fun hz => by rw [g2]; exact (pf0 hz).1,
        fun hz => (g3 hz).1, ?_, ?_⟩
      · by_cases hpf : 0 ≤ pcm.playback.fd
        · exact Or.inl hpf
        · right
          rw [g2] at hpf
          omega
      · intro hver
        have hpfds : (playback_stage C K card device subdevice mode w).2.2.fds
            = (if Int.land mode C.SND_PCM_OPEN_PLAYBACK ≠ 0 then [pcm.playback.fd] else [])
                ++ w.fds := by
          by_cases hz : Int.land mode C.SND_PCM_OPEN_PLAYBACK = 0
          · rw [(pf0 hz).2]
            simp [hz]
          · rw [pf1 hz hver (by rw [← g2]; exact hplay.mpr hz), g2]
            simp [hz]
        by_cases hcq : Int.land mode C.SND_PCM_OPEN_CAPTURE = 0
        · rw [(g3 hcq).2, hpfds]
          simp [hcq]
        · rw [(g4 hcq).2 hver, hpfds]
          simp [hcq]
  · intro hP hCq
    obtain ⟨q1, q2⟩ := pf0 hP
    rw [key]
    split_ifs with hcard hctl hp
    · exact ⟨hEn, rfl, fun h => absurd hcard h⟩
    · exact ⟨hctl, rfl, fun _ h => absurd hctl h⟩
    · exact absurd hP hp.1
    · have hfin : open_subdevice_capture C K card device subdevice mode (open_fmode C mode)
          (issue K (.ctl_open card) w).1.ptr
          (playback_stage C K card device subdevice mode w).1
          (playback_stage C K card device subdevice mode w).2.1
          (playback_stage C K card device subdevice mode w).2.2
          = (-EINVAL, none, (issue K (.ctl_close (issue K (.ctl_open card) w).1.ptr)
              (playback_stage C K card device subdevice mode w).2.2).2) := by
        simp only [open_subdevice_capture, hCq, ne_eq, not_true_eq_false, if_false, false_and,
          open_subdevice_finish, q1]
        rw [if_pos ⟨by decide, by decide⟩]
      rw [hfin]
      exact ⟨hEn, rfl, fun _ _ => ⟨rfl, by rw [issue_fds, q2]⟩⟩

/-! ## Protocol incompatibility -/

/-- An attempt that meets an incompatible version ends with the `return` of
`-SND_ERROR_INCOMPATIBLE_VERSION`, after the `open`, the version query and the
`close` of the descriptor, with the descriptor table as before. -/
theorem incompatible_attempt (C : Consts) (K : Kernel) (card device channel subdevice fmode : Int)
    (ver : Int) (w : World) (hm : attempt_incompatible C K card device channel fmode w) :
    (open_attempt C K card device channel subdevice fmode ver w).1
      = .ret (-C.SND_ERROR_INCOMPATIBLE_VERSION) ∧
    (open_attempt C K card device channel subdevice fmode ver w).2.2.trace
      = w.trace ++ [Call.sys_open card device channel fmode,
          Call.ioctl_pversion (K (w.trace ++ [.sys_open card device channel fmode])).ret,
          Call.sys_close (K (w.trace ++ [.sys_open card device channel fmode])).ret] ∧
    (open_attempt C K card device channel subdevice fmode ver w).2.2.fds = w.fds := by
  obtain ⟨h1, h2, h3⟩ := hm
  have h1' : ¬ (K (w.trace ++ [.sys_open card device channel fmode])).ret < 0 := by omega
  have h2' := not_lt.mpr h2
  simp only [open_attempt, sys_open, sys_close, issue, h1', h2', h3, if_false, if_true,
    List.erase_cons_head]
  simp only [List.append_assoc, List.singleton_append, List.cons_append, List.nil_append,
    and_self]

/-- C14: for every open attempt of `snd_pcm_open_channel` (any pass of the
retry loop within the attempt limit) in which the device file opens and the
version query succeeds but reports a version incompatible with the library
maximum 1.1.0, the function closes that descriptor, issues no further call (so
no further open attempt), leaves the table of open descriptors as it was and
returns `-SND_ERROR_INCOMPATIBLE_VERSION`; for an error constant above every
error number of the system that value differs from -EBUSY and from every
negated OS error. -/
theorem incompatible_version_is_fatal (C : Consts) (K : Kernel)
    (card device channel subdevice fmode ctl : Int) (attempt : Nat) (ver : Int) (w : World)
    (hatt : attempt ≤ 3) (hinc : attempt_incompatible C K card device channel fmode w) :
    (snd_pcm_open_channel_again C K card device channel subdevice fmode ctl attempt ver w).1
      = -C.SND_ERROR_INCOMPATIBLE_VERSION ∧
    (snd_pcm_open_channel_again C K card device channel subdevice fmode ctl attempt ver w).2.2.trace
      = w.trace ++ [Call.sys_open card device channel fmode,
          Call.ioctl_pversion (K (w.trace ++ [.sys_open card device channel fmode])).ret,
          Call.sys_close (K (w.trace ++ [.sys_open card device channel fmode])).ret] ∧
    (snd_pcm_open_channel_again C K card device channel subdevice fmode ctl attempt ver w).2.2.fds
      = w.fds ∧
    (incompatible_error_distinct C →
      (snd_pcm_open_channel_again C K card device channel subdevice fmode ctl attempt ver w).1
        ≠ -EBUSY ∧
      ∀ e : Errno, (e.val : Int) ≤ MAX_ERRNO →
        (snd_pcm_open_channel_again C K card device channel subdevice fmode ctl attempt ver w).1
          ≠ e.neg) := by
  obtain ⟨a1, a2, a3⟩ := incompatible_attempt C K card device channel subdevice fmode ver w hinc
  rw [again_ret C K card device channel subdevice fmode ctl attempt ver w _ (by omega) a1]
  refine ⟨rfl, a2, a3, fun hdist => ⟨?_, fun e he => ?_⟩⟩
  · unfold incompatible_error_distinct MAX_ERRNO at hdist
    show -C.SND_ERROR_INCOMPATIBLE_VERSION ≠ -EBUSY
    unfold EBUSY
    omega
  · unfold incompatible_error_distinct at hdist
    show -C.SND_ERROR_INCOMPATIBLE_VERSION ≠ e.neg
    unfold Errno.neg
    omega

/-! ## Transitions -/

/-- C15, as the code has it: for a non-null handle, each transition operation
(playback/capture prepare, go and flush, playback drain, the channel-indexed
prepare/go/flush with a direction d in {PLAYBACK, CAPTURE}, sync-go with a
non-null sync structure, playback pause) returns -EINVAL and issues no call
when the descriptor of its target direction is not open (sync-go targets
PLAYBACK), and when it is open issues exactly one device request and returns 0
if the request succeeds and the negated OS error if it fails.  With a null sync
structure sync-go returns -EINVAL and issues no call, whether the PLAYBACK
descriptor is open or not. -/
theorem transitions_need_open_descriptor (K : Kernel) (p : snd_pcm_t) (d : Int)
    (sync : snd_pcm_sync_t) (enable : Int) (w : World)
    (hd : d = SND_PCM_CHANNEL_PLAYBACK ∨ d = SND_PCM_CHANNEL_CAPTURE) :
    (((p.chan SND_PCM_CHANNEL_PLAYBACK).fd < 0 → snd_pcm_playback_prepare K (some p) w = (-EINVAL, w)) ∧
      (0 ≤ (p.chan SND_PCM_CHANNEL_PLAYBACK).fd → snd_pcm_playback_prepare K (some p) w = one_request K (Call.ioctl_channel_prepare (p.chan SND_PCM_CHANNEL_PLAYBACK).fd) w)) ∧
    (((p.chan SND_PCM_CHANNEL_CAPTURE).fd < 0 → snd_pcm_capture_prepare K (some p) w = (-EINVAL, w)) ∧
      (0 ≤ (p.chan SND_PCM_CHANNEL_CAPTURE).fd → snd_pcm_capture_prepare K (some p) w = one_request K (Call.ioctl_channel_prepare (p.chan SND_PCM_CHANNEL_CAPTURE).fd) w)) ∧
    (((p.chan SND_PCM_CHANNEL_PLAYBACK).fd < 0 → snd_pcm_playback_go K (some p) w = (-EINVAL, w)) ∧
      (0 ≤ (p.chan SND_PCM_CHANNEL_PLAYBACK).fd → snd_pcm_playback_go K (some p) w = one_request K (Call.ioctl_channel_go (p.chan SND_PCM_CHANNEL_PLAYBACK).fd) w)) ∧
    (((p.chan SND_PCM_CHANNEL_CAPTURE).fd < 0 → snd_pcm_capture_go K (some p) w = (-EINVAL, w)) ∧
      (0 ≤ (p.chan SND_PCM_CHANNEL_CAPTURE).fd → snd_pcm_capture_go K (some p) w = one_request K (Call.ioctl_channel_go (p.chan SND_PCM_CHANNEL_CAPTURE).fd) w)) ∧
    (((p.chan SND_PCM_CHANNEL_PLAYBACK).fd < 0 → snd_pcm_playback_drain K (some p) w = (-EINVAL, w)) ∧
      (0 ≤ (p.chan SND_PCM_CHANNEL_PLAYBACK).fd → snd_pcm_playback_drain K (some p) w = one_request K (Call.ioctl_channel_drain (p.chan SND_PCM_CHANNEL_PLAYBACK).fd) w)) ∧
    (((p.chan SND_PCM_CHANNEL_PLAYBACK).fd < 0 → snd_pcm_playback_flush K (some p) w = (-EINVAL, w)) ∧
      (0 ≤ (p.chan SND_PCM_CHANNEL_PLAYBACK).fd → snd_pcm_playback_flush K (some p) w = one_request K (Call.ioctl_channel_flush (p.chan SND_PCM_CHANNEL_PLAYBACK).fd) w)) ∧
    (((p.chan SND_PCM_CHANNEL_CAPTURE).fd < 0 → snd_pcm_capture_flush K (some p) w = (-EINVAL, w)) ∧
      (0 ≤ (p.chan SND_PCM_CHANNEL_CAPTURE).fd → snd_pcm_capture_flush K (some p) w = one_request K (Call.ioctl_channel_flush (p.chan SND_PCM_CHANNEL_CAPTURE).fd) w)) ∧
    (((p.chan d).fd < 0 → snd_pcm_channel_prepare K (some p) d w = (-EINVAL, w)) ∧
      (0 ≤ (p.chan d).fd → snd_pcm_channel_prepare K (some p) d w = one_request K (Call.ioctl_channel_prepare (p.chan d).fd) w)) ∧
    (((p.chan d).fd < 0 → snd_pcm_channel_go K (some p) d w = (-EINVAL, w)) ∧
      (0 ≤ (p.chan d).fd → snd_pcm_channel_go K (some p) d w = one_request K (Call.ioctl_channel_go (p.chan d).fd) w)) ∧
    (((p.chan d).fd < 0 → snd_pcm_channel_flush K (some p) d w = (-EINVAL, w)) ∧
      (0 ≤ (p.chan d).fd → snd_pcm_channel_flush K (some p) d w = one_request K (Call.ioctl_channel_flush (p.chan d).fd) w)) ∧
    (((p.chan SND_PCM_CHANNEL_PLAYBACK).fd < 0 → snd_pcm_sync_go K (some p) (some sync) w = (-EINVAL, w)) ∧
      (0 ≤ (p.chan SND_PCM_CHANNEL_PLAYBACK).fd → snd_pcm_sync_go K (some p) (some sync) w
        = one_request K (Call.ioctl_sync_go (p.chan SND_PCM_CHANNEL_PLAYBACK).fd sync) w)) ∧
    (((p.chan SND_PCM_CHANNEL_PLAYBACK).fd < 0 → snd_pcm_playback_pause K (some p) enable w = (-EINVAL, w)) ∧
      (0 ≤ (p.chan SND_PCM_CHANNEL_PLAYBACK).fd → snd_pcm_playback_pause K (some p) enable w
        = one_request K (Call.ioctl_channel_pause (p.chan SND_PCM_CHANNEL_PLAYBACK).fd enable) w)) ∧
    snd_pcm_sync_go K (some p) none w = (-EINVAL, w) := by
  have simple : ∀ (fd : Int) (c : Call),
      ((fd < 0 → (if fd < 0 then ((-EINVAL : Int), w)
          else if (issue K c w).1.ret < 0 then ((issue K c w).1.errno.neg, (issue K c w).2)
          else (0, (issue K c w).2)) = (-EINVAL, w)) ∧
       (0 ≤ fd → (if fd < 0 then ((-EINVAL : Int), w)
          else if (issue K c w).1.ret < 0 then ((issue K c w).1.errno.neg, (issue K c w).2)
          else (0, (issue K c w).2)) = one_request K c w)) := by
    intro fd c
    constructor
    · intro h
      rw [if_pos h]
    · intro h
      rw [if_neg (by omega)]
      unfold one_request issue
      split_ifs <;> rfl
  refine ⟨simple _ _, simple _ _, simple _ _, simple _ _, simple _ _, simple _ _, simple _ _,
    ?_, ?_, ?_, simple _ _, simple _ _, rfl⟩
  all_goals
    rcases hd with h | h
    · subst h
      exact simple _ _
    · subst h
      exact simple _ _

/-! ## Directions out of range -/

/-- C16, as the code has it: for a direction outside {PLAYBACK = 0, CAPTURE = 1},
whatever the handle, the structures and the world are,
`snd_pcm_file_descriptor`, `snd_pcm_channel_info`, `snd_pcm_channel_params`,
`snd_pcm_channel_setup`, `snd_pcm_voice_setup`, `snd_pcm_transfer_size`,
`snd_pcm_mmap` and `snd_pcm_munmap` return -EINVAL, and
`snd_pcm_channel_prepare`, `snd_pcm_channel_go` and `snd_pcm_channel_flush`
return -EIO; none of them issues a call or changes the session object (the
result does not depend on any slot), `snd_pcm_mmap` having set the two output
pointers to NULL. -/
theorem direction_out_of_range (C : Consts) (K : Kernel) (pcm : Option snd_pcm_t) (d : Int)
    (info : snd_pcm_channel_info_t) (prm : snd_pcm_channel_params_t)
    (setup : snd_pcm_channel_setup_t) (voice : Option snd_pcm_voice_setup_t)
    (control buffer : Option Int) (w : World)
    (hd : d < 0 ∨ d > 1) (hinfo : info.channel = d) (hprm : prm.channel = d)
    (hsetup : setup.channel = d) :
    snd_pcm_file_descriptor pcm d = -EINVAL ∧
    snd_pcm_channel_info K pcm (some info) w = (-EINVAL, some info, w) ∧
    snd_pcm_channel_params K pcm (some prm) w = (-EINVAL, pcm, w) ∧
    snd_pcm_channel_setup K pcm (some setup) w = (-EINVAL, pcm, some setup, w) ∧
    snd_pcm_voice_setup K pcm d voice w = (-EINVAL, voice, w) ∧
    snd_pcm_transfer_size C pcm d w = (-EINVAL, pcm, w) ∧
    snd_pcm_mmap C K pcm d control buffer w
      = (-EINVAL, pcm, control.map (fun _ => NULL), buffer.map (fun _ => NULL), w) ∧
    snd_pcm_munmap C K pcm d w = (-EINVAL, pcm, w) ∧
    snd_pcm_channel_prepare K pcm d w = (- EIO, w) ∧
    snd_pcm_channel_go K pcm d w = (- EIO, w) ∧
    snd_pcm_channel_flush K pcm d w = (- EIO, w) := by
  have hp : ¬ d = SND_PCM_CHANNEL_PLAYBACK := by
    unfold SND_PCM_CHANNEL_PLAYBACK; omega
  have hc : ¬ d = SND_PCM_CHANNEL_CAPTURE := by
    unfold SND_PCM_CHANNEL_CAPTURE; omega
  have hinfo1 : info.channel < 0 ∨ info.channel > 1 := by omega
  have hprm1 : prm.channel < 0 ∨ prm.channel > 1 := by omega
  have hsetup1 : setup.channel < 0 ∨ setup.channel > 1 := by omega
  have hm : d < 0 ∨ d > 1 ∨ control = none ∨ buffer = none := by
    rcases hd with h | h
    · exact Or.inl h
    · exact Or.inr (Or.inl h)
  refine ⟨?_, ?_, ?_, ?_, ?_, ?_, ?_, ?_, ?_, ?_, ?_⟩
  · cases pcm <;> simp [snd_pcm_file_descriptor, hd]
  · cases pcm <;> simp [snd_pcm_channel_info, hinfo1]
  · cases pcm <;> simp [snd_pcm_channel_params, hprm1]
  · cases pcm <;> simp [snd_pcm_channel_setup, hsetup1]
  · cases pcm <;> cases voice <;> simp [snd_pcm_voice_setup, hd]
  · cases pcm <;> simp [snd_pcm_transfer_size, hd]
  · cases pcm <;> simp [snd_pcm_mmap, hm]
  · cases pcm <;> simp [snd_pcm_munmap, hd]
  · simp [snd_pcm_channel_prepare, hp, hc]
  · simp [snd_pcm_channel_go, hp, hc]
  · simp [snd_pcm_channel_flush, hp, hc]

/-- The function `snd_pcm_channel_status` has no range check: on a non-null
handle, with a direction outside {0, 1} in the caller's structure, it reads
`pcm->chan` outside the array instead of returning -EINVAL. -/
theorem channel_status_unchecked (K : Kernel) (p : snd_pcm_t)
    (status : snd_pcm_channel_status_t) (w : World)
    (hd : status.channel < 0 ∨ status.channel > 1) :
    snd_pcm_channel_status K (some p) (some status) w = none := by
  have h0 : ¬ status.channel = 0 := by omega
  have h1 : ¬ status.channel = 1 := by omega
  simp [snd_pcm_channel_status, snd_pcm_t.chan_unchecked, h0, h1]

/-! ## The control session on the busy path -/

/-- An attempt that meets a subdevice mismatch does not touch the control
session. -/
theorem mismatch_attempt_ctl (C : Consts) (K : Kernel)
    (card device channel subdevice fmode : Int) (ver : Int) (w : World) (hsub : 0 ≤ subdevice)
    (hm : attempt_mismatches C K card device channel subdevice fmode w) :
    count_ctl_close (open_attempt C K card device channel subdevice fmode ver w).2.2.trace
      = count_ctl_close w.trace := by
  obtain ⟨h1, h2, h3, h4, h5⟩ := hm
  have h1' : ¬ (K (w.trace ++ [.sys_open card device channel fmode])).ret < 0 := by omega
  have h2' := not_lt.mpr h2
  have h4' := not_lt.mpr h4
  simp only [open_attempt, sys_open, sys_close, issue, h1', h2', h3, h4', h5, if_false, hsub,
    ge_iff_le, if_true, ne_eq, not_false_eq_true, count_ctl_close,
    List.countP_append, List.countP_cons, List.countP_nil, Bool.false_eq_true]
  simp

/-- Attempts that all meet a subdevice mismatch do not touch the control
session. -/
theorem after_attempts_ctl (C : Consts) (K : Kernel) (card device channel subdevice fmode : Int)
    (hsub : 0 ≤ subdevice) (k : Nat) :
    ∀ (ver : Int) (w : World),
      (∀ i, i < k → attempt_mismatches C K card device channel subdevice fmode
        (after_attempts C K card device channel subdevice fmode i (ver, w)).2) →
      count_ctl_close (after_attempts C K card device channel subdevice fmode k (ver, w)).2.trace
        = count_ctl_close w.trace := by
  induction k with
  | zero => intro ver w _; rfl
  | succ k ih =>
    intro ver w hm
    have h0 := mismatch_attempt_ctl C K card device channel subdevice fmode ver w hsub
      (hm 0 (by omega))
    have := ih (open_attempt C K card device channel subdevice fmode ver w).2.1
      (open_attempt C K card device channel subdevice fmode ver w).2.2
      (fun i hi => hm (i + 1) (by omega))
    exact this.trans h0

/-- When the first four attempts all meet a subdevice mismatch,
`snd_pcm_open_channel` returns -EBUSY after closing the control session
itself. -/
theorem open_channel_busy (C : Consts) (K : Kernel)
    (card device channel subdevice fmode ctl ver : Int) (w : World)
    (hsub : 0 ≤ subdevice)
    (hch : channel = SND_PCM_CHANNEL_PLAYBACK ∨ channel = SND_PCM_CHANNEL_CAPTURE)
    (hpref : ¬ (issue K (.ctl_prefer_subdevice ctl device channel subdevice) w).1.ret < 0)
    (hmis : ∀ i, i < 4 → attempt_mismatches C K card device channel subdevice fmode
      (after_attempts C K card device channel subdevice fmode i
        (ver, (issue K (.ctl_prefer_subdevice ctl device channel subdevice) w).2)).2) :
    snd_pcm_open_channel C K card device channel subdevice fmode ctl ver w
      = (-EBUSY,
          (after_attempts C K card device channel subdevice fmode 4
            (ver, (issue K (.ctl_prefer_subdevice ctl device channel subdevice) w).2)).1,
          (issue K (.ctl_close ctl)
            (after_attempts C K card device channel subdevice fmode 4
              (ver, (issue K (.ctl_prefer_subdevice ctl device channel subdevice) w).2)).2).2) := by
  obtain ⟨e1, _, _, _⟩ := again_mismatches C K card device channel subdevice fmode ctl hsub 4 0
    ver (issue K (.ctl_prefer_subdevice ctl device channel subdevice) w).2 rfl hmis
  unfold snd_pcm_open_channel
  simp only [hch, hpref, if_true, if_false, e1]

/-- C17 fails on the busy path: when `snd_pcm_open_subdevice` is called with
PLAYBACK requested and a subdevice >= 0 (valid card, control session opened,
subdevice preference accepted) and the four open attempts for PLAYBACK all
meet a subdevice mismatch, the call returns -EBUSY with a NULL handle and
`snd_ctl_close` has been called twice on the control session: once inside
`snd_pcm_open_channel` at the attempt limit and once more in
`snd_pcm_open_subdevice`. -/
theorem busy_path_closes_control_twice (C : Consts) (K : Kernel)
    (card device subdevice mode : Int) (w : World)
    (hcard : ¬ (card < 0 ∨ card ≥ C.SND_CARDS))
    (hctl : ¬ (issue K (.ctl_open card) w).1.ret < 0)
    (hP : Int.land mode C.SND_PCM_OPEN_PLAYBACK ≠ 0)
    (hsub : 0 ≤ subdevice)
    (hpref : ¬ (issue K (.ctl_prefer_subdevice (issue K (.ctl_open card) w).1.ptr device
      SND_PCM_CHANNEL_PLAYBACK subdevice) (issue K (.ctl_open card) w).2).1.ret < 0)
    (hmis : ∀ i, i < 4 → attempt_mismatches C K card device SND_PCM_CHANNEL_PLAYBACK subdevice
      (open_fmode C mode)
      (after_attempts C K card device SND_PCM_CHANNEL_PLAYBACK subdevice (open_fmode C mode) i
        (0, (issue K (.ctl_prefer_subdevice (issue K (.ctl_open card) w).1.ptr device
          SND_PCM_CHANNEL_PLAYBACK subdevice) (issue K (.ctl_open card) w).2).2)).2) :
    (snd_pcm_open_subdevice C K card device subdevice mode w).1 = -EBUSY ∧
    (snd_pcm_open_subdevice C K card device subdevice mode w).2.1 = none ∧
    count_ctl_close (snd_pcm_open_subdevice C K card device subdevice mode w).2.2.trace
      = count_ctl_close w.trace + 2 := by
  have hb := open_channel_busy C K card device SND_PCM_CHANNEL_PLAYBACK subdevice
    (open_fmode C mode) (issue K (.ctl_open card) w).1.ptr 0 (issue K (.ctl_open card) w).2
    hsub (Or.inl rfl) hpref hmis
  have hc := after_attempts_ctl C K card device SND_PCM_CHANNEL_PLAYBACK subdevice
    (open_fmode C mode) hsub 4 0
    (issue K (.ctl_prefer_subdevice (issue K (.ctl_open card) w).1.ptr device
      SND_PCM_CHANNEL_PLAYBACK subdevice) (issue K (.ctl_open card) w).2).2 hmis
  have hs : playback_stage C K card device subdevice mode w
      = snd_pcm_open_channel C K card device SND_PCM_CHANNEL_PLAYBACK subdevice
          (open_fmode C mode) (issue K (.ctl_open card) w).1.ptr 0
          (issue K (.ctl_open card) w).2 := by
    unfold playback_stage playback_open
    rw [if_pos hP]
  rw [hb] at hs
  have hneg : Int.land mode C.SND_PCM_OPEN_PLAYBACK ≠ 0 ∧
      (playback_stage C K card device subdevice mode w).1 < 0 := by
    refine ⟨hP, ?_⟩
    rw [hs]
    exact (by decide : (-EBUSY : Int) < 0)
  rw [open_subdevice_stages, if_neg hcard, if_neg hctl, if_pos hneg, hs]
  refine ⟨rfl, rfl, ?_⟩
  simp only [issue_trace] at hc ⊢
  simp only [count_ctl_close, List.countP_append, List.countP_cons, List.countP_nil] at hc ⊢
  simp only [hc]
  simp

/-! ## Concrete instances -/

theorem setup_twice_is_cache_hit_witness :
    (snd_pcm_channel_setup kernel_ok (some pcm_playback) (some (requery_arg 0)) world_playback).1 = 0 ∧
    snd_pcm_channel_setup kernel_ok (some pcm_playback_cached) (some ⟨0, 9, 9, 9⟩) world_empty
      = (0, some pcm_playback_cached, some ⟨0, 1, 1024, 0⟩, world_empty) :=
  ⟨by decide,
   setup_twice_is_cache_hit kernel_ok pcm_playback 0 (requery_arg 0) world_playback
    (Or.inl rfl) (by decide) rfl (by decide) pcm_playback_cached pcm_playback_cached
    ⟨0, 9, 9, 9⟩ world_empty (by decide) rfl rfl⟩

theorem setup_after_params_is_fresh_witness :
    (params_then_setup kernel_ok (some pcm_playback_cached) params_playback ⟨0, 9, 9, 9⟩
        world_playback).2.2.1 = some ⟨0, 1, 1024, 0⟩ ∧
    ∀ (old : snd_pcm_channel_setup_t) (b : Bool),
      params_then_setup kernel_ok
          (some (pcm_playback_cached.setChan 0
            { pcm_playback_cached.chan 0 with setup := old, setup_is_valid := b }))
          params_playback ⟨0, 9, 9, 9⟩ world_playback
        = params_then_setup kernel_ok (some pcm_playback_cached) params_playback ⟨0, 9, 9, 9⟩
            world_playback :=
  ⟨by decide,
   (setup_after_params_is_fresh kernel_ok pcm_playback_cached params_playback ⟨0, 9, 9, 9⟩
    world_playback 0 (Or.inl rfl) rfl rfl (by decide) (by decide)).2⟩

theorem params_requery_failure_is_returned_witness :
    (snd_pcm_channel_params kernel_setup_fails (some pcm_playback_cached) (some params_playback)
        world_playback).1 = -5 ∧
    (snd_pcm_channel_params kernel_setup_fails (some pcm_playback_cached) (some params_playback)
        world_playback).1 < 0 :=
  ⟨(params_requery_failure_is_returned kernel_setup_fails pcm_playback_cached params_playback
      world_playback 0 (Or.inl rfl) rfl (by decide) (by decide) (by decide)).1,
   (params_requery_failure_is_returned kernel_setup_fails pcm_playback_cached params_playback
      world_playback 0 (Or.inl rfl) rfl (by decide) (by decide) (by decide)).2.1⟩

/-- C3 as stated fails: in an environment where the parameter request succeeds
and the setup query fails with `errno` 5, `snd_pcm_channel_params` on an open
playback channel returns -5, not 0. -/
theorem params_requery_failure_not_success :
    ¬ (issue kernel_setup_fails (.ioctl_channel_params 3 params_playback) world_playback).1.ret < 0 ∧
    (issue kernel_setup_fails (.ioctl_channel_setup 3 (requery_arg 0))
      (issue kernel_setup_fails (.ioctl_channel_params 3 params_playback) world_playback).2).1.ret < 0 ∧
    (snd_pcm_channel_params kernel_setup_fails (some pcm_playback_cached) (some params_playback)
        world_playback).1 = -5 ∧
    (snd_pcm_channel_params kernel_setup_fails (some pcm_playback_cached) (some params_playback)
        world_playback).1 ≠ 0 := by
  decide

theorem file_descriptor_returns_slot_witness :
    snd_pcm_file_descriptor (some pcm_playback) 0 = 3 :=
  (file_descriptor_returns_slot alsa_consts kernel_ok pcm_playback 0 (Or.inl rfl)).1

/-- C4 as stated fails: on a session with only playback open, whose capture
slot holds the not-open sentinel, `snd_pcm_file_descriptor` for CAPTURE returns
-1, not -EINVAL (-22). -/
theorem file_descriptor_not_einval :
    (pcm_playback.chan SND_PCM_CHANNEL_CAPTURE).fd < 0 ∧
    snd_pcm_file_descriptor (some pcm_playback) SND_PCM_CHANNEL_CAPTURE = -1 ∧
    snd_pcm_file_descriptor (some pcm_playback) SND_PCM_CHANNEL_CAPTURE ≠ -EINVAL := by
  decide

/-- In the environment `kernel_ok`, opening card 0, device 0 with only PLAYBACK
requested yields the session `pcm_playback` with descriptor 3 open. -/
theorem open_playback_only :
    snd_pcm_open_subdevice alsa_consts kernel_ok 0 0 (-1) 1 world_empty
      = (0, some pcm_playback,
          ⟨[.ctl_open 0, .ctl_prefer_subdevice 4096 0 0 (-1), .sys_open 0 0 0 2,
            .ioctl_pversion 3, .ctl_close 4096, .calloc], [3], []⟩) := by
  have h1 : snd_pcm_open_channel alsa_consts kernel_ok 0 0 SND_PCM_CHANNEL_PLAYBACK (-1) O_RDWR
      4096 0 (issue kernel_ok (.ctl_open 0) world_empty).2
      = (3, 65792, ⟨[.ctl_open 0, .ctl_prefer_subdevice 4096 0 0 (-1), .sys_open 0 0 0 2,
            .ioctl_pversion 3], [3], []⟩) := by
    rw [open_channel_first_attempt alsa_consts kernel_ok 0 0 _ (-1) _ 4096 0 _ 3 (Or.inl rfl)
      (by decide) (by decide)]
    decide
  have e1 : open_fmode alsa_consts 1 = O_RDWR := by decide
  have e2 : Int.land 1 alsa_consts.SND_PCM_OPEN_PLAYBACK = 1 := by decide
  have e3 : Int.land 1 alsa_consts.SND_PCM_OPEN_CAPTURE = 0 := by decide
  have e4 : (issue kernel_ok (.ctl_open 0) world_empty).1.ptr = 4096 := by decide
  have e5 : ¬ (issue kernel_ok (.ctl_open 0) world_empty).1.ret < 0 := by decide
  have e6 : ¬ ((0 : Int) < 0 ∨ (0 : Int) ≥ alsa_consts.SND_CARDS) := by decide
  simp only [snd_pcm_open_subdevice, open_subdevice_capture, e1, e2, e3, e4, e5, e6, h1, ne_eq,
    not_true_eq_false, one_ne_zero, not_false_eq_true, if_true, if_false, true_and, false_and]
  decide

/-- In the environment `kernel_capture_fails` the playback channel of card 0,
device 0 opens as descriptor 3. -/
theorem playback_open_example :
    playback_open alsa_consts kernel_capture_fails 0 0 (-1) 3 world_empty
      = (3, 65792, ⟨[.ctl_open 0, .ctl_prefer_subdevice 4096 0 0 (-1), .sys_open 0 0 0 2,
            .ioctl_pversion 3], [3], []⟩) := by
  unfold playback_open
  rw [open_channel_first_attempt alsa_consts kernel_capture_fails 0 0 _ (-1) _ _ 0 _ 3 (Or.inl rfl)
    (by decide) (by decide)]
  decide

/-- In the environment `kernel_capture_fails` the capture channel of card 0,
device 0 does not open: the result is -5. -/
theorem capture_open_example :
    (capture_open alsa_consts kernel_capture_fails 0 0 (-1) 3 world_empty).1 = -5 := by
  unfold capture_open
  rw [playback_open_example]
  rw [open_channel_first_attempt alsa_consts kernel_capture_fails 0 0 _ (-1) _ _ _ _ (-5)
    (Or.inr rfl) (by decide) (by decide)]

theorem capture_failure_leaves_no_descriptor_witness :
    (snd_pcm_open_subdevice alsa_consts kernel_capture_fails 0 0 (-1) 3 world_empty).1 < 0 ∧
    (snd_pcm_open_subdevice alsa_consts kernel_capture_fails 0 0 (-1) 3 world_empty).2.1 = none ∧
    (snd_pcm_open_subdevice alsa_consts kernel_capture_fails 0 0 (-1) 3 world_empty).2.2.fds = [] :=
  (capture_failure_leaves_no_descriptor alsa_consts kernel_capture_fails 0 0 (-1) 3 world_empty
    (by decide) (by decide) (by decide) (by decide) (by decide)
    (by rw [playback_open_example]; decide)
    (by rw [capture_open_example]; decide)).2

theorem busy_after_four_mismatches_witness :
    (snd_pcm_open_channel alsa_consts kernel_ok 0 0 0 2 2 4096 0 world_empty).1 = -EBUSY ∧
    count_open (snd_pcm_open_channel alsa_consts kernel_ok 0 0 0 2 2 4096 0 world_empty).2.2.trace
      = 4 :=
  ⟨(busy_after_four_mismatches alsa_consts kernel_ok 0 0 0 2 2 4096 0 world_empty (by decide)
      (Or.inl rfl) (by decide) (by decide)).1,
   (busy_after_four_mismatches alsa_consts kernel_ok 0 0 0 2 2 4096 0 world_empty (by decide)
      (Or.inl rfl) (by decide) (by decide)).2.1⟩

theorem transfer_size_reads_cache_witness :
    snd_pcm_transfer_size alsa_consts (some pcm_playback_cached) 0 world_playback
      = (1024, some pcm_playback_cached, world_playback) :=
  transfer_size_reads_cache alsa_consts pcm_playback_cached 0 world_playback (Or.inl rfl)

theorem null_buffer_transfers_witness :
    snd_pcm_write kernel_ok (some pcm_duplex) NULL 4 world_duplex = (-EINVAL, world_duplex) ∧
    snd_pcm_read kernel_ok (some pcm_duplex) NULL 4 world_duplex = (-EINVAL, world_duplex) ∧
    snd_pcm_write kernel_ok (some pcm_duplex) NULL 0 world_duplex
      = (0, ⟨[.sys_write 3 0 0], [4, 3], []⟩) ∧
    snd_pcm_read kernel_ok (some pcm_duplex) NULL 0 world_duplex
      = (0, ⟨[.sys_read 4 0 0], [4, 3], []⟩) :=
  ⟨((null_buffer_transfers kernel_ok (some pcm_duplex) pcm_duplex 4 world_duplex).1
      (by decide)).1,
   ((null_buffer_transfers kernel_ok (some pcm_duplex) pcm_duplex 4 world_duplex).1
      (by decide)).2,
   (null_buffer_transfers kernel_ok (some pcm_duplex) pcm_duplex 4 world_duplex).2.1 (by decide),
   (null_buffer_transfers kernel_ok (some pcm_duplex) pcm_duplex 4 world_duplex).2.2 (by decide)⟩

theorem mmap_data_failure_unmaps_control_witness :
    (snd_pcm_mmap alsa_consts kernel_data_map_fails (some pcm_playback) 0 (some 7) (some 7)
        world_playback).1 = -5 ∧
    (snd_pcm_mmap alsa_consts kernel_data_map_fails (some pcm_playback) 0 (some 7) (some 7)
        world_playback).2.2.2.2.maps = [] :=
  ⟨(mmap_data_failure_unmaps_control alsa_consts kernel_data_map_fails pcm_playback 0 7 7
      world_playback (Or.inl rfl) (by decide) (by decide) (by decide) (by decide)).1,
   (mmap_data_failure_unmaps_control alsa_consts kernel_data_map_fails pcm_playback 0 7 7
      world_playback (Or.inl rfl) (by decide) (by decide) (by decide) (by decide)).2.2.2.2.2.2⟩

theorem munmap_twice_is_safe_witness :
    (mmap_then_munmap alsa_consts kernel_ok pcm_playback 0 7 7 world_playback).1 = 0 ∧
    (mmap_then_munmap alsa_consts kernel_ok pcm_playback 0 7 7 world_playback).2.2.maps = [] :=
  ⟨(munmap_twice_is_safe alsa_consts kernel_ok pcm_playback 0 7 7 world_playback (Or.inl rfl)
      (by decide)).1,
   (munmap_twice_is_safe alsa_consts kernel_ok pcm_playback 0 7 7 world_playback (Or.inl rfl)
      (by decide)).2.2.1⟩

/-- C11 as stated fails: on a session with both directions open, in an
environment where closing the PLAYBACK descriptor fails with `errno` 5 and
closing the CAPTURE descriptor fails with `errno` 9, `snd_pcm_close` returns
-9, the error of the second close, not -5. -/
theorem close_first_error_not_returned :
    (kernel_close_fails (playback_close_history alsa_consts pcm_duplex world_duplex)).ret ≠ 0 ∧
    (kernel_close_fails (playback_close_history alsa_consts pcm_duplex world_duplex)).errno.neg
      = -5 ∧
    (kernel_close_fails (capture_close_history alsa_consts pcm_duplex world_duplex)).ret ≠ 0 ∧
    (kernel_close_fails (capture_close_history alsa_consts pcm_duplex world_duplex)).errno.neg
      = -9 ∧
    (snd_pcm_close alsa_consts kernel_close_fails (some pcm_duplex) world_duplex).1 = -9 ∧
    (snd_pcm_close alsa_consts kernel_close_fails (some pcm_duplex) world_duplex).1 ≠ -5 := by
  decide

theorem nonblock_failure_mode_witness :
    (snd_pcm_nonblock_mode alsa_consts kernel_capture_getfl_fails (some pcm_duplex) 1
        world_duplex).1 = -5 ∧
    (snd_pcm_nonblock_mode alsa_consts kernel_capture_getfl_fails (some pcm_duplex) 1
        world_duplex).2.1
      = some (if 0 ≤ pcm_duplex.playback.fd then
          { pcm_duplex with mode := nonblock_mode_flags alsa_consts 1 pcm_duplex.mode }
          else pcm_duplex) :=
  ⟨((nonblock_failure_mode alsa_consts kernel_capture_getfl_fails pcm_duplex 1 world_duplex
      (-5)).2.1 (by decide) (by decide)).1,
   ((nonblock_failure_mode alsa_consts kernel_capture_getfl_fails pcm_duplex 1 world_duplex
      (-5)).2.1 (by decide) (by decide)).2.2⟩

/-- C12 as stated fails: on a session with both directions open and mode flags
3, in an environment where the flag read on the CAPTURE descriptor fails after
the PLAYBACK descriptor was switched, `snd_pcm_nonblock_mode(pcm, 1)` returns
-5 and the remembered mode flags are 4099, not the 3 of before the call. -/
theorem nonblock_mode_partial_update :
    (getfl_call kernel_capture_getfl_fails 4
      (setfl_call kernel_capture_getfl_fails 3 1 world_duplex).2).1.ret < 0 ∧
    (snd_pcm_nonblock_mode alsa_consts kernel_capture_getfl_fails (some pcm_duplex) 1
        world_duplex).1 = -5 ∧
    Option.map snd_pcm_t.mode
      (snd_pcm_nonblock_mode alsa_consts kernel_capture_getfl_fails (some pcm_duplex) 1
        world_duplex).2.1 = some 4099 ∧
    pcm_duplex.mode = 3 := by
  decide

theorem open_success_slots_witness :
    ∃ pcm, (snd_pcm_open_subdevice alsa_consts kernel_ok 0 0 (-1) 1 world_empty).2.1 = some pcm ∧
      (0 ≤ pcm.playback.fd ↔ Int.land 1 alsa_consts.SND_PCM_OPEN_PLAYBACK ≠ 0) ∧
      (0 ≤ pcm.capture.fd ↔ Int.land 1 alsa_consts.SND_PCM_OPEN_CAPTURE ≠ 0) := by
  obtain ⟨pcm, h1, h2, h3, _⟩ :=
    (open_success_slots alsa_consts kernel_ok 0 0 (-1) 1 world_empty).1
      (by rw [open_playback_only])
  exact ⟨pcm, h1, h2, h3⟩

theorem incompatible_version_is_fatal_witness :
    (snd_pcm_open_channel_again alsa_consts kernel_incompatible 0 0 0 (-1) 2 4096 0 0
        world_empty).1 = -500000 ∧
    (snd_pcm_open_channel_again alsa_consts kernel_incompatible 0 0 0 (-1) 2 4096 0 0
        world_empty).1 ≠ -EBUSY :=
  ⟨(incompatible_version_is_fatal alsa_consts kernel_incompatible 0 0 0 (-1) 2 4096 0 0
      world_empty (by decide) (by decide)).1,
   ((incompatible_version_is_fatal alsa_consts kernel_incompatible 0 0 0 (-1) 2 4096 0 0
      world_empty (by decide) (by decide)).2.2.2 (by decide)).1⟩

theorem transitions_need_open_descriptor_witness :
    snd_pcm_playback_prepare kernel_ok (some pcm_playback) world_playback
      = (0, ⟨[.ioctl_channel_prepare 3], [3], []⟩) ∧
    snd_pcm_capture_prepare kernel_ok (some pcm_playback) world_playback
      = (-EINVAL, world_playback) :=
  ⟨(transitions_need_open_descriptor kernel_ok pcm_playback 0 ⟨0⟩ 1 world_playback
      (Or.inl rfl)).1.2 (by decide),
   (transitions_need_open_descriptor kernel_ok pcm_playback 0 ⟨0⟩ 1 world_playback
      (Or.inl rfl)).2.1.1 (by decide)⟩

/-- C15 as stated fails: on a session whose PLAYBACK descriptor is open,
`snd_pcm_sync_go` with a null sync structure returns -EINVAL and issues no
device request, although the descriptor of its target direction is open. -/
theorem sync_go_null_sync_no_request :
    0 ≤ (pcm_playback.chan SND_PCM_CHANNEL_PLAYBACK).fd ∧
    snd_pcm_sync_go kernel_ok (some pcm_playback) none world_playback
      = (-EINVAL, world_playback) ∧
    (snd_pcm_sync_go kernel_ok (some pcm_playback) none world_playback).2.trace
      = world_playback.trace ∧
    (snd_pcm_sync_go kernel_ok (some pcm_playback) none world_playback).1 ≠ 0 := by
  decide

theorem direction_out_of_range_witness :
    snd_pcm_file_descriptor (some pcm_duplex) 2 = -EINVAL ∧
    snd_pcm_channel_info kernel_ok (some pcm_duplex) (some ⟨2, 0, 0, 0⟩) world_duplex
      = (-EINVAL, some ⟨2, 0, 0, 0⟩, world_duplex) :=
  ⟨(direction_out_of_range alsa_consts kernel_ok (some pcm_duplex) 2 ⟨2, 0, 0, 0⟩ ⟨2, 0⟩
      ⟨2, 0, 0, 0⟩ (some ⟨0⟩) (some 7) (some 7) world_duplex (Or.inr (by decide)) rfl rfl rfl).1,
   (direction_out_of_range alsa_consts kernel_ok (some pcm_duplex) 2 ⟨2, 0, 0, 0⟩ ⟨2, 0⟩
      ⟨2, 0, 0, 0⟩ (some ⟨0⟩) (some 7) (some 7) world_duplex (Or.inr (by decide)) rfl rfl
      rfl).2.1⟩

/-- C16 as stated fails: with the direction 2 on a session with both directions
open, `snd_pcm_channel_prepare`, `snd_pcm_channel_go` and
`snd_pcm_channel_flush` return -EIO (-5), not -EINVAL (-22). -/
theorem channel_indexed_not_einval :
    snd_pcm_channel_prepare kernel_ok (some pcm_duplex) 2 world_duplex = (-5, world_duplex) ∧
    snd_pcm_channel_go kernel_ok (some pcm_duplex) 2 world_duplex = (-5, world_duplex) ∧
    snd_pcm_channel_flush kernel_ok (some pcm_duplex) 2 world_duplex = (-5, world_duplex) ∧
    (snd_pcm_channel_prepare kernel_ok (some pcm_duplex) 2 world_duplex).1 ≠ -EINVAL := by
  decide

theorem busy_path_closes_control_twice_witness :
    (snd_pcm_open_subdevice alsa_consts kernel_ok 0 0 2 1 world_empty).1 = -EBUSY ∧
    (snd_pcm_open_subdevice alsa_consts kernel_ok 0 0 2 1 world_empty).2.1 = none ∧
    count_ctl_close (snd_pcm_open_subdevice alsa_consts kernel_ok 0 0 2 1 world_empty).2.2.trace
      = 2 :=
  busy_path_closes_control_twice alsa_consts kernel_ok 0 0 2 1 world_empty (by decide)
    (by decide) (by decide) (by decide) (by decide) (by decide)

end AlsaPcm
